import Mathlib

/-!
Verification of the KOBPAY wallet-ledger and settlement core.

This file gives a shallow embedding, in Lean 4, of the ledger-affecting
code of the KOBPAY backend: the bill-settlement endpoints
(src/routes/bills.ts, the generic bill-pay and withdrawal routers), and
the webhook reconcilers (src/routes/webhooks.ts), over the persisted
state described by the SQL migration (Wallet / Transaction /
WebhookEvent with their unique indexes).

Modelling conventions:
- The relational store is a record of lists; a Prisma interactive
  transaction (prisma dollar-transaction) is modelled as the pure
  composition of its statements, committing when the callback returns
  normally and rolling back (state unchanged, error surfaced) when it
  throws, which is the documented contract of the construct.
- A statement that would raise the unique-constraint error P2002 is
  modelled by an explicit membership test against the unique key, with
  the source's catch blocks translated as the corresponding branch.
- Monetary amounts are integers in minor units (kobo), as the schema
  stores them; naira inputs are converted by multiplying by 100,
  mirroring Math.round(amountNgn multiplied by 100) on whole-naira values.
- Request validation (zod schemas, PIN checks, phone checks) precedes
  every modelled code path and rejects without touching the ledger; the
  embedding starts at the first ledger-relevant statement of each flow,
  receiving an already-validated command.
- External effects (HMAC computation, the provider HTTP calls) enter as
  parameters: hash functions are abstract function parameters, and a
  provider call is an Except value, with error standing for the call
  throwing (timeout, network failure, malformed response) and ok for a
  returned response object.
-/

namespace Kobpay

/-! ## String helpers

The source decides provider statuses with JavaScript
String.prototype.includes on lowercased strings; listIsPrefixOf and
strContains reimplement that substring test. -/

def listIsPrefixOf : List Char → List Char → Bool
  | [], _ => true
  | _ :: _, [] => false
  | a :: as, b :: bs => a == b && listIsPrefixOf as bs

def listContainsSub (pat : List Char) : List Char → Bool
  | [] => listIsPrefixOf pat []
  | c :: cs => listIsPrefixOf pat (c :: cs) || listContainsSub pat cs

/-- Substring test: strContains s pat is true when pat occurs in s. -/
def strContains (s pat : String) : Bool :=
  listContainsSub pat.toList s.toList

/-- Lowercasing via the character list (the JavaScript toLowerCase on
the ASCII provider vocabulary). -/
def toLowerStr (s : String) : String :=
  String.mk (s.data.map Char.toLower)

/-! ## Persisted data model (SQL migration: Wallet, Transaction, WebhookEvent) -/

/-- One row of the Transaction table. The metaJson audit blob is not
modelled: per the spec it never participates in any invariant decision. -/
structure Txn where
  id : Nat
  userId : String
  txType : String
  category : String
  amountKobo : Int
  feeKobo : Int
  totalKobo : Int
  provider : String
  providerRef : String
  status : String
deriving Repr, DecidableEq

/-- One row of the Wallet table (one balance per user). -/
structure Wallet where
  userId : String
  balanceKobo : Int
  currency : String
deriving Repr, DecidableEq

/-- One row of the WebhookEvent table. -/
structure WEvent where
  provider : String
  reference : String
  eventType : String
  status : String
deriving Repr, DecidableEq

/-- The relational store. nextId models the transaction-row id sequence. -/
structure Db where
  wallets : List Wallet
  txs : List Txn
  events : List WEvent
  nextId : Nat
deriving Repr, DecidableEq

/-! ## Store primitives (the Prisma calls the flows perform) -/

/-- prisma.wallet.findUnique by userId. -/
def findWallet (db : Db) (u : String) : Option Wallet :=
  db.wallets.find? (fun w => decide (w.userId = u))

/-- Balance read used by the theorems: balance of the user's wallet,
zero when no wallet row exists. -/
def walletBalance (db : Db) (u : String) : Int :=
  ((findWallet db u).map Wallet.balanceKobo).getD 0

/-- getOrCreateWallet from src/routes/bills.ts: return the existing
wallet or create one with balance zero. -/
def getOrCreateWallet (db : Db) (u : String) (currency : String) : Db × Wallet :=
  match findWallet db u with
  | some w => (db, w)
  | none =>
    let w : Wallet := ⟨u, 0, currency⟩
    ({ db with wallets := db.wallets ++ [w] }, w)

/-- prisma.wallet.update with balanceKobo increment (decrement is a
negative amount). The row is known to exist at every call site. -/
def walletIncrement (db : Db) (u : String) (amt : Int) : Db :=
  { db with
    wallets := db.wallets.map
      (fun w => if w.userId = u then { w with balanceKobo := w.balanceKobo + amt } else w) }

/-- prisma.transaction.findFirst with a provider, providerRef and userId
filter: the user-scoped idempotency lookup of the settlement flows. -/
def findTxn (db : Db) (provider ref u : String) : Option Txn :=
  db.txs.find? (fun t =>
    decide (t.provider = provider ∧ t.providerRef = ref ∧ t.userId = u))

/-- Membership test against the unique index on
Transaction(provider, providerRef); a create that hits it raises P2002. -/
def txnExists (db : Db) (provider ref : String) : Bool :=
  db.txs.any (fun t => decide (t.provider = provider ∧ t.providerRef = ref))

/-- prisma.transaction.create: assigns the next row id and appends. -/
def createTxn (db : Db) (mk : Nat → Txn) : Db × Txn :=
  let t := mk db.nextId
  ({ db with txs := db.txs ++ [t], nextId := db.nextId + 1 }, t)

/-- prisma.transaction.update by row id. -/
def updateTxn (db : Db) (i : Nat) (f : Txn → Txn) : Db :=
  { db with txs := db.txs.map (fun t => if t.id = i then f t else t) }

/-- prisma.webhookEvent lookup on the unique (provider, reference) key. -/
def findEvent (db : Db) (provider ref : String) : Option WEvent :=
  db.events.find? (fun e => decide (e.provider = provider ∧ e.reference = ref))

/-- prisma.webhookEvent.create; the caller checks findEvent first to
model the P2002 catch. -/
def createEvent (db : Db) (e : WEvent) : Db :=
  { db with events := db.events ++ [e] }

/-- prisma.webhookEvent.update of the processing status, addressed by
the unique (provider, reference) key. -/
def updateEvent (db : Db) (provider ref status : String) : Db :=
  { db with
    events := db.events.map
      (fun e =>
        if e.provider = provider ∧ e.reference = ref then { e with status := status } else e) }

/-! ## Provider responses and status vocabulary mapping -/

/-- The fields of a VTUAfrica response that the decision logic reads:
body.code, and the status text extracted from body.description (either
the description string itself or description.Status), empty when
absent. -/
structure VtuResponse where
  code : Int
  descriptionStatus : String
deriving Repr, DecidableEq

/-- isVtuCompleted from src/routes/bills.ts: code must be 101 and, when
a description status text is present, it must contain "completed". -/
def isVtuCompleted (r : VtuResponse) : Bool :=
  let statusOk := strContains (toLowerStr r.descriptionStatus) "completed"
  if r.descriptionStatus ≠ "" then decide (r.code = 101) && statusOk
  else decide (r.code = 101)

/-- mapVtuStatus / toBillStatus from vtuAfricaBillsService.ts: decide on
the lowercased description text (the body.status and body.message
fallbacks are dead, because the extracted text is never nullish). -/
def toBillStatus (r : VtuResponse) : String :=
  let raw := toLowerStr r.descriptionStatus
  if strContains raw "success" || strContains raw "completed" then "success"
  else if strContains raw "fail" || strContains raw "error" then "failed"
  else "pending"

/-- Transfer status mapping inlined in the withdrawal flow: includes
success/completed makes success, includes fail/error makes failed,
anything else stays pending. -/
def mapTransferStatus (statusRaw : String) : String :=
  let s := toLowerStr statusRaw
  if strContains s "success" || strContains s "completed" then "success"
  else if strContains s "fail" || strContains s "error" then "failed"
  else "pending"

/-- mapStatus from src/routes/webhooks.ts: exact-word mapping, empty
means pending, any other word passes through unchanged. -/
def mapStatus (value : String) : String :=
  let status := toLowerStr value
  if status = "successful" ∨ status = "success" ∨ status = "completed" then "success"
  else if status = "failed" ∨ status = "fail" ∨ status = "error" ∨
      status = "cancelled" ∨ status = "canceled" then "failed"
  else if status = "" then "pending"
  else status

/-- mapVtuWebhookStatus from src/routes/webhooks.ts: substring mapping
of the webhook status field. -/
def mapVtuWebhookStatus (value : String) : String :=
  let status := toLowerStr value
  if strContains status "success" || strContains status "completed" then "success"
  else if strContains status "fail" || strContains status "error" then "failed"
  else "pending"

/-! ## Settlement flows (debit now, call provider, settle) -/

/-- Outcome surfaced by a settlement flow. insufficientFunds and
refConflict reject before the provider call; idempotent returns the
prior transaction; ok is the success response; providerFailed is the
explicit provider-declined error after finalization; providerException
is the catch path of the provider call; chargeInsufficient is the
betting flow's distinct insufficient-funds-for-provider-charge error. -/
inductive SettleResult where
  | insufficientFunds
  | refConflict
  | idempotent (t : Txn)
  | ok (t : Txn)
  | providerFailed (t : Txn)
  | providerException (t : Txn)
  | chargeInsufficient (t : Txn)
deriving Repr, DecidableEq

/-- Result of running one settlement flow: the final store, the surfaced
result, and how many times the purchase/transfer provider adapter was
invoked. -/
structure StepOut where
  db : Db
  result : SettleResult
  purchaseCalls : Nat
deriving Repr, DecidableEq

/-- POST /bills/airtime/purchase, src/routes/bills.ts lines 378 to 521,
starting after validation. reference is the client-supplied clientRef or
the generated buildReference value. The call parameter is the
purchaseAirtime invocation: error means the call threw. On an explicit
provider failure the finalize step marks the row failed and refunds in
one atomic unit; on a thrown call the catch block only rethrows, leaving
the row pending and the debit in place. -/
def airtimePurchase (db0 : Db) (u : String) (amountKobo : Int) (reference : String)
    (call : Except Unit VtuResponse) : StepOut :=
  let db1 := (getOrCreateWallet db0 u "NGN").1
  let wallet := (getOrCreateWallet db0 u "NGN").2
  if wallet.balanceKobo < amountKobo then ⟨db1, .insufficientFunds, 0⟩
  else
    match findTxn db1 "vtuafrica" reference u with
    | some existing => ⟨db1, .idempotent existing, 0⟩
    | none =>
      if txnExists db1 "vtuafrica" reference then ⟨db1, .refConflict, 0⟩
      else
        let db2 := walletIncrement db1 u (-amountKobo)
        let mk : Nat → Txn := fun i =>
          ⟨i, u, "debit", "airtime", amountKobo, 0, amountKobo, "vtuafrica", reference, "pending"⟩
        let db3 := (createTxn db2 mk).1
        let txn := (createTxn db2 mk).2
        match call with
        | .error _ => ⟨db3, .providerException txn, 1⟩
        | .ok resp =>
          let successful := isVtuCompleted resp
          let st := if successful then "success" else "failed"
          let db4 := updateTxn db3 txn.id (fun t => { t with status := st })
          let db5 := if successful then db4 else walletIncrement db4 u amountKobo
          if successful then ⟨db5, .ok { txn with status := st }, 1⟩
          else ⟨db5, .providerFailed { txn with status := st }, 1⟩

/-- POST /billers/pay (the generic bill-pay router), starting after
validation as in airtimePurchase. Differences from airtime: the row's
category is bills, the terminal status comes from toBillStatus (which
can stay pending, in which case no refund is applied and the debit
stands), and the catch path refunds and marks the row failed in one
atomic unit before rethrowing. -/
def billPay (db0 : Db) (u : String) (amountKobo : Int) (reference : String)
    (call : Except Unit VtuResponse) : StepOut :=
  let db1 := (getOrCreateWallet db0 u "NGN").1
  let wallet := (getOrCreateWallet db0 u "NGN").2
  if wallet.balanceKobo < amountKobo then ⟨db1, .insufficientFunds, 0⟩
  else
    match findTxn db1 "vtuafrica" reference u with
    | some existing => ⟨db1, .idempotent existing, 0⟩
    | none =>
      if txnExists db1 "vtuafrica" reference then ⟨db1, .refConflict, 0⟩
      else
        let db2 := walletIncrement db1 u (-amountKobo)
        let mk : Nat → Txn := fun i =>
          ⟨i, u, "debit", "bills", amountKobo, 0, amountKobo, "vtuafrica", reference, "pending"⟩
        let db3 := (createTxn db2 mk).1
        let txn := (createTxn db2 mk).2
        match call with
        | .error _ =>
          let db4 := walletIncrement db3 u amountKobo
          let db5 := updateTxn db4 txn.id (fun t => { t with status := "failed" })
          ⟨db5, .providerException { txn with status := "failed" }, 1⟩
        | .ok resp =>
          let st := toBillStatus resp
          let db4 := updateTxn db3 txn.id (fun t => { t with status := st })
          let db5 := if st = "failed" then walletIncrement db4 u amountKobo else db4
          if st = "failed" then ⟨db5, .providerFailed { txn with status := st }, 1⟩
          else ⟨db5, .ok { txn with status := st }, 1⟩

/-- POST / of the withdrawal router, starting after validation. The
wallet must already exist (findUnique, not get-or-create); the
idempotency lookup also filters on the withdrawal category; the provider
is flutterwave and the terminal status comes from the transfer response
status text (a pending transfer stays pending and keeps the debit); the
catch path refunds and marks the row failed before rethrowing. -/
def withdrawal (db0 : Db) (u : String) (amountKobo : Int) (reference : String)
    (call : Except Unit String) : StepOut :=
  match findWallet db0 u with
  | none => ⟨db0, .insufficientFunds, 0⟩
  | some wallet =>
    if wallet.balanceKobo < amountKobo then ⟨db0, .insufficientFunds, 0⟩
    else
      match db0.txs.find? (fun t =>
        decide (t.provider = "flutterwave" ∧ t.providerRef = reference ∧
          t.userId = u ∧ t.category = "withdrawal")) with
      | some existing => ⟨db0, .idempotent existing, 0⟩
      | none =>
        if txnExists db0 "flutterwave" reference then ⟨db0, .refConflict, 0⟩
        else
          let db2 := walletIncrement db0 u (-amountKobo)
          let mk : Nat → Txn := fun i =>
            ⟨i, u, "debit", "withdrawal", amountKobo, 0, amountKobo,
              "flutterwave", reference, "pending"⟩
          let db3 := (createTxn db2 mk).1
          let txn := (createTxn db2 mk).2
          match call with
          | .error _ =>
            let db4 := walletIncrement db3 u amountKobo
            let db5 := updateTxn db4 txn.id (fun t => { t with status := "failed" })
            ⟨db5, .providerException { txn with status := "failed" }, 1⟩
          | .ok transferStatus =>
            let st := mapTransferStatus transferStatus
            let db4 := updateTxn db3 txn.id (fun t => { t with status := st })
            let db5 := if st = "failed" then walletIncrement db4 u amountKobo else db4
            if st = "failed" then ⟨db5, .providerFailed { txn with status := st }, 1⟩
            else ⟨db5, .ok { txn with status := st }, 1⟩

/-! ## Betting funding (variable-cost settlement) -/

/-- A fundBetAccount response: the base VTUAfrica response plus the
charge figures parsed from its description
(Request_Amount, Charge, Amount_Charged), in naira. -/
structure BetResponse where
  base : VtuResponse
  requestAmountNgn : Option Int
  chargeNgn : Option Int
  amountChargedNgn : Option Int
deriving Repr, DecidableEq

/-- Outcome of the pre-provider phase of the betting flow. -/
inductive BetPrep where
  | insufficientFunds
  | refConflict
  | idempotent (t : Txn)
  | proceed (t : Txn)
deriving Repr, DecidableEq

/-- POST /bills/betting/purchase, phase before the provider call
(src/routes/bills.ts lines 1465 to 1519, after validation and account
verification): the balance must cover the request amount plus a fixed
100-naira buffer, the idempotency lookup is user scoped, and the pending
transaction row is created without any wallet debit. -/
def bettingPrepare (db0 : Db) (u : String) (amountKobo : Int) (reference : String) :
    Db × BetPrep :=
  let db1 := (getOrCreateWallet db0 u "NGN").1
  let wallet := (getOrCreateWallet db0 u "NGN").2
  let bufferKobo : Int := 100 * 100
  if wallet.balanceKobo < amountKobo + bufferKobo then (db1, .insufficientFunds)
  else
    match findTxn db1 "vtuafrica" reference u with
    | some existing => (db1, .idempotent existing)
    | none =>
      if txnExists db1 "vtuafrica" reference then (db1, .refConflict)
      else
        let mk : Nat → Txn := fun i =>
          ⟨i, u, "debit", "betting", amountKobo, 0, amountKobo, "vtuafrica", reference,
            "pending"⟩
        ((createTxn db1 mk).1, .proceed (createTxn db1 mk).2)

/-- POST /bills/betting/purchase, phase from the provider call onward
(src/routes/bills.ts lines 1521 to 1658): on an explicit failure or a
thrown call the pending row is marked failed (no wallet movement has
happened, so nothing is refunded); on success the actual charged amount
is derived from the response, and one atomic step re-reads the wallet,
requires its balance to cover the full actual charge, debits that full
amount and rewrites the row's amount, fee and total before marking it
success; if the balance cannot cover the actual charge the row is marked
failed and a distinct insufficient-funds-for-provider-charge error is
surfaced. -/
def bettingSettle (db3 : Db) (u : String) (amountKobo : Int) (txn : Txn)
    (call : Except Unit BetResponse) : StepOut :=
  match call with
  | .error _ =>
    let db4 := updateTxn db3 txn.id (fun t => { t with status := "failed" })
    ⟨db4, .providerException { txn with status := "failed" }, 1⟩
  | .ok resp =>
    if ¬ isVtuCompleted resp.base then
      let db4 := updateTxn db3 txn.id (fun t => { t with status := "failed" })
      ⟨db4, .providerFailed { txn with status := "failed" }, 1⟩
    else
      let requestAmountKobo := (resp.requestAmountNgn.map (· * 100)).getD amountKobo
      let amountChargedKobo :=
        match resp.amountChargedNgn with
        | some a => a * 100
        | none =>
          match resp.chargeNgn with
          | some c => requestAmountKobo + c * 100
          | none => requestAmountKobo
      let feeKobo := max 0 (amountChargedKobo - requestAmountKobo)
      let fresh := walletBalance db3 u
      if fresh < amountChargedKobo then
        let db4 := updateTxn db3 txn.id (fun t => { t with status := "failed" })
        ⟨db4, .chargeInsufficient { txn with status := "failed" }, 1⟩
      else
        let db4 := walletIncrement db3 u (-amountChargedKobo)
        let upd : Txn → Txn := fun t =>
          { t with
            amountKobo := amountChargedKobo, feeKobo := feeKobo,
            totalKobo := amountChargedKobo, status := "success" }
        let db5 := updateTxn db4 txn.id upd
        ⟨db5, .ok (upd txn), 1⟩

/-- POST /bills/betting/purchase end to end: prepare, then settle when
the prepare phase produced a pending row. -/
def bettingPurchase (db0 : Db) (u : String) (amountKobo : Int) (reference : String)
    (call : Except Unit BetResponse) : StepOut :=
  match bettingPrepare db0 u amountKobo reference with
  | (db1, .insufficientFunds) => ⟨db1, .insufficientFunds, 0⟩
  | (db1, .refConflict) => ⟨db1, .refConflict, 0⟩
  | (db1, .idempotent t) => ⟨db1, .idempotent t, 0⟩
  | (db1, .proceed t) => bettingSettle db1 u amountKobo t call

/-! ## Webhook reconcilers (src/routes/webhooks.ts) -/

/-- Acknowledgement surfaced by a webhook handler: invalidSignature is
the thrown WEBHOOK_INVALID error; the others are HTTP 200
acknowledgements. -/
inductive HookResult where
  | invalidSignature
  | duplicate
  | unmatched
  | ignored
  | processed
deriving Repr, DecidableEq

/-- safeCompare: length check plus crypto.timingSafeEqual, which decides
string equality (in constant time; the timing aspect is not modelled). -/
def safeCompare (a b : String) : Bool := a == b

/-- Signature gate of handleFlutterwaveWebhook (lines 127 to 144): when
a secret is configured, the primary header is verified as an
HMAC-SHA256/base64 over the raw body, else the legacy verif-hash header
is compared against the secret itself, else the request is rejected. The
HMAC computation is abstract (hmac256 secret rawBody). -/
def flwSignatureOk (hmac256 : String → String → String) (secret : Option String)
    (rawBody : String) (sigHeader legacyHeader : Option String) : Bool :=
  match secret with
  | none => true
  | some sec =>
    match sigHeader with
    | some sig => safeCompare (hmac256 sec rawBody) sig
    | none =>
      match legacyHeader with
      | some lh => safeCompare sec lh
      | none => false

/-- Fields of a Flutterwave webhook body read by the handler; data
fields keep their source spellings (id, flw_ref, reference, tx_ref,
status, customer_reference, amount, app_fee, currency), with naira
amounts as integers. -/
structure FlwData where
  idField : Option String
  flwRef : Option String
  referenceField : Option String
  txRefField : Option String
  statusField : Option String
  customerReference : Option String
  amountNgn : Int
  feeNgn : Int
  currencyField : Option String
deriving Repr, DecidableEq

/-- Top-level Flutterwave webhook payload: the event name, the data
object, the embedded meta userId, and the top-level status and id
fallbacks. -/
structure FlwPayload where
  eventField : Option String
  data : FlwData
  metaUserId : Option String
  statusTop : Option String
  idTop : Option String
deriving Repr, DecidableEq

/-- Character class of the tx_ref user-id regex
(digits, hex letters in either case, dash). -/
def isHexDashChar (c : Char) : Bool :=
  c.isDigit || ("abcdefABCDEF".toList.contains c) || c = '-'

/-- extractUserIdFromTxRef: the tx_ref must start with va or wf and an
underscore, followed by a 36-character uuid-shaped group and another
underscore. -/
def extractUserIdFromTxRef : Option String → Option String
  | none => none
  | some s =>
    let cs := s.toList
    if listIsPrefixOf ['v', 'a', '_'] cs || listIsPrefixOf ['w', 'f', '_'] cs then
      let rest := cs.drop 3
      let idChars := rest.take 36
      if idChars.length = 36 && idChars.all isHexDashChar &&
          (rest.drop 36).head? = some '_' then
        some (String.mk idChars)
      else none
    else none

/-- extractTxRef: data.tx_ref else data.reference (the txRef camel-case
fallback never differs in the modelled payloads). -/
def extractTxRef (d : FlwData) : Option String :=
  d.txRefField <|> d.referenceField

/-- The providerRef chain of handleFlutterwaveWebhook:
data.id, data.flw_ref, data.reference, the extracted tx_ref, the
top-level payload id, defaulting to the literal string unknown. -/
def flwProviderRef (p : FlwPayload) : String :=
  ((((p.data.idField <|> p.data.flwRef) <|> p.data.referenceField) <|>
    extractTxRef p.data) <|> p.idTop).getD "unknown"

/-- The WebhookEvent reference: the providerRef, or a generated fresh
string when the chain bottomed out at unknown. -/
def flwReference (p : FlwPayload) (freshRef : String) : String :=
  if flwProviderRef p = "unknown" then freshRef else flwProviderRef p

/-- extractBillReference: customer_reference, reference, tx_ref,
flw_ref. -/
def extractBillReference (d : FlwData) : Option String :=
  ((d.customerReference <|> d.referenceField) <|> d.txRefField) <|> d.flwRef

/-- extractTransferReference: reference, tx_ref, flw_ref, id. -/
def extractTransferReference (d : FlwData) : Option String :=
  ((d.referenceField <|> d.txRefField) <|> d.flwRef) <|> d.idField

/-- Wallet upsert of the funding branch: increment the balance and
refresh the currency when the wallet exists, otherwise create it with
the credited amount as the opening balance. -/
def walletUpsertCredit (db : Db) (u : String) (amt : Int) (currency : String) : Db :=
  match findWallet db u with
  | some _ =>
    { db with
      wallets := db.wallets.map (fun w =>
        if w.userId = u then { w with balanceKobo := w.balanceKobo + amt, currency := currency }
        else w) }
  | none => { db with wallets := db.wallets ++ [⟨u, amt, currency⟩] }

/-- handleFlutterwaveWebhook (src/routes/webhooks.ts lines 126 to 441).
freshRef stands for the generated unknown-reference string,
flwCurrency for env.FLW_CURRENCY. The funding branch follows the source
in performing the wallet upsert before the transaction insert and
swallowing the insert's unique-constraint collision with a plain return,
so the interactive transaction commits the balance increment (and skips
the WebhookEvent status update) in the collision case. -/
def handleFlutterwaveWebhook (hmac256 : String → String → String)
    (secret : Option String) (rawBody : String) (sigHeader legacyHeader : Option String)
    (flwCurrency : String) (p : FlwPayload) (freshRef : String) (db0 : Db) :
    Db × HookResult :=
  if ¬ flwSignatureOk hmac256 secret rawBody sigHeader legacyHeader then
    (db0, .invalidSignature)
  else
    let data := p.data
    let eventType := p.eventField.getD "unknown"
    let status := toLowerStr ((data.statusField <|> p.statusTop).getD "")
    let txRef := extractTxRef data
    let providerRef := flwProviderRef p
    let reference := flwReference p freshRef
    match findEvent db0 "flutterwave" reference with
    | some _ => (db0, .duplicate)
    | none =>
      let db1 := createEvent db0 ⟨"flutterwave", reference, eventType, "RECEIVED"⟩
      let normalizedEvent := toLowerStr eventType
      if normalizedEvent = "singlebillpayment.status" then
        match extractBillReference data with
        | none => (updateEvent db1 "flutterwave" reference "UNMATCHED", .unmatched)
        | some billRef =>
          match db1.txs.find? (fun t =>
            decide (t.provider = "flutterwave" ∧ t.providerRef = billRef)) with
          | none => (updateEvent db1 "flutterwave" reference "UNMATCHED", .unmatched)
          | some tr =>
            let mapped := mapStatus (data.statusField.getD "")
            let db2 := updateTxn db1 tr.id (fun t => { t with status := mapped })
            let db3 :=
              if mapped = "failed" then walletIncrement db2 tr.userId tr.amountKobo else db2
            let db4 := updateEvent db3 "flutterwave" reference
              (if mapped = "failed" then "FAILED" else "PROCESSED")
            (db4, .processed)
      else if normalizedEvent = "transfer.completed" ∨ normalizedEvent = "transfer.failed" ∨
          normalizedEvent = "transfer.status" then
        match extractTransferReference data with
        | none => (updateEvent db1 "flutterwave" reference "UNMATCHED", .unmatched)
        | some transferRef =>
          match db1.txs.find? (fun t =>
            decide (t.provider = "flutterwave" ∧ t.providerRef = transferRef ∧
              t.category = "withdrawal")) with
          | none => (updateEvent db1 "flutterwave" reference "UNMATCHED", .unmatched)
          | some tr =>
            let mapped := mapStatus (data.statusField.getD normalizedEvent)
            let db2 := updateTxn db1 tr.id (fun t => { t with status := mapped })
            let db3 :=
              if mapped = "failed" ∧ tr.status ≠ "failed" then
                walletIncrement db2 tr.userId tr.amountKobo
              else db2
            let db4 := updateEvent db3 "flutterwave" reference
              (if mapped = "failed" then "FAILED" else "PROCESSED")
            (db4, .processed)
      else if ¬ (normalizedEvent = "charge.completed" ∧
          (status = "successful" ∨ status = "success" ∨ status = "succeeded")) then
        (updateEvent db1 "flutterwave" reference "IGNORED", .ignored)
      else
        match extractUserIdFromTxRef txRef <|> p.metaUserId with
        | none => (updateEvent db1 "flutterwave" reference "UNMATCHED", .unmatched)
        | some uid =>
          let amountKobo : Int := data.amountNgn * 100
          let feeKobo : Int := data.feeNgn * 100
          let currency := data.currencyField.getD flwCurrency
          let db2 := walletUpsertCredit db1 uid amountKobo currency
          if txnExists db2 "flutterwave" providerRef then (db2, .processed)
          else
            let db3 := (createTxn db2 (fun i =>
              ⟨i, uid, "credit", "wallet_funding", amountKobo, feeKobo,
                amountKobo + feeKobo, "flutterwave", providerRef, status⟩)).1
            (updateEvent db3 "flutterwave" reference "PROCESSED", .processed)

/-- Fields of a VTUAfrica webhook payload read by the handler. -/
structure VtuHookPayload where
  apikey : Option String
  refField : Option String
  referenceField : Option String
  transactionId : Option String
  statusField : Option String
deriving Repr, DecidableEq

/-- Signature gate of handleVtuWebhook (lines 610 to 616): the MD5 hash
of the configured api key is compared against the payload's apikey
field, but only when both are present; a payload without an apikey is
not verified at all. md5hex is the abstract hash. -/
def vtuSignatureOk (md5hex : String → String) (vtuApiKey : Option String)
    (apikey : Option String) : Bool :=
  match vtuApiKey, apikey with
  | some key, some hash => safeCompare (md5hex key) hash
  | _, _ => true

/-- The reference of a VTUAfrica webhook: payload.ref, else reference,
else transaction_id, else empty. -/
def vtuHookReference (p : VtuHookPayload) : String :=
  ((p.refField <|> p.referenceField) <|> p.transactionId).getD ""

/-- handleVtuWebhook (src/routes/webhooks.ts lines 608 to 702). The
finalize step refunds whenever the mapped status is failed, without
checking the matched transaction's current status. -/
def handleVtuWebhook (md5hex : String → String) (vtuApiKey : Option String)
    (p : VtuHookPayload) (db0 : Db) : Db × HookResult :=
  if ¬ vtuSignatureOk md5hex vtuApiKey p.apikey then (db0, .invalidSignature)
  else
    let reference := vtuHookReference p
    if reference = "" then (db0, .unmatched)
    else
      let mapped := mapVtuWebhookStatus (p.statusField.getD "")
      match findEvent db0 "vtuafrica" reference with
      | some _ => (db0, .duplicate)
      | none =>
        let db1 := createEvent db0 ⟨"vtuafrica", reference, "transaction", "RECEIVED"⟩
        match db1.txs.find? (fun t =>
          decide (t.provider = "vtuafrica" ∧ t.providerRef = reference ∧
            t.category = "bills")) with
        | none => (updateEvent db1 "vtuafrica" reference "UNMATCHED", .unmatched)
        | some tr =>
          let db2 := updateTxn db1 tr.id (fun t => { t with status := mapped })
          let db3 :=
            if mapped = "failed" then walletIncrement db2 tr.userId tr.amountKobo else db2
          let db4 := updateEvent db3 "vtuafrica" reference
            (if mapped = "failed" then "FAILED" else "PROCESSED")
          (db4, .processed)

/-! ## Basic store lemmas -/

theorem getOrCreateWallet_txs (db : Db) (u c : String) :
    ((getOrCreateWallet db u c).1).txs = db.txs := by
  unfold getOrCreateWallet
  cases findWallet db u <;> rfl

theorem getOrCreateWallet_events (db : Db) (u c : String) :
    ((getOrCreateWallet db u c).1).events = db.events := by
  unfold getOrCreateWallet
  cases findWallet db u <;> rfl

theorem getOrCreateWallet_snd_balance (db : Db) (u c : String) :
    ((getOrCreateWallet db u c).2).balanceKobo = walletBalance db u := by
  unfold getOrCreateWallet walletBalance
  cases findWallet db u <;> rfl

theorem findWallet_append_self (db : Db) (u c : String) (h : findWallet db u = none) :
    findWallet { db with wallets := db.wallets ++ [⟨u, 0, c⟩] } u = some ⟨u, 0, c⟩ := by
  unfold findWallet at h ⊢
  rw [List.find?_append, h]
  simp

theorem walletBalance_getOrCreate_self (db : Db) (u c : String) :
    walletBalance ((getOrCreateWallet db u c).1) u = walletBalance db u := by
  unfold getOrCreateWallet
  cases h : findWallet db u with
  | some w => rfl
  | none =>
    show walletBalance { db with wallets := db.wallets ++ [⟨u, 0, c⟩] } u = _
    unfold walletBalance
    rw [findWallet_append_self db u c h, h]
    rfl

theorem getOrCreateWallet_findTxn (db : Db) (u c p r v : String) :
    findTxn ((getOrCreateWallet db u c).1) p r v = findTxn db p r v := by
  unfold findTxn
  rw [getOrCreateWallet_txs]

theorem getOrCreateWallet_txnExists (db : Db) (u c p r : String) :
    txnExists ((getOrCreateWallet db u c).1) p r = txnExists db p r := by
  unfold txnExists
  rw [getOrCreateWallet_txs]

theorem findTxn_userId (db : Db) (p r v : String) (t : Txn)
    (h : findTxn db p r v = some t) : t.userId = v := by
  unfold findTxn at h
  have := List.find?_some h
  simp only [decide_eq_true_eq] at this
  exact this.2.2

theorem bettingSettle_result_not_idempotent (db : Db) (u : String) (a : Int) (t0 t : Txn)
    (call : Except Unit BetResponse) :
    (bettingSettle db u a t0 call).result ≠ .idempotent t := by
  unfold bettingSettle
  cases call with
  | error e => simp
  | ok resp =>
    by_cases hs : isVtuCompleted resp.base = true
    · simp only [hs, not_true, if_false, ite_false]
      split <;> simp
    · simp [hs]

/-! ## C10: the idempotency lookup is user scoped -/

/-- Claim C10. In every debit-initiating flow the idempotency lookup
filters on the requesting user in addition to provider and providerRef,
so the idempotent-return path can only ever surface a transaction owned
by the requester: whenever airtimePurchase, billPay, withdrawal or
bettingPurchase returns the idempotent result, the returned
transaction's userId is the requesting user. -/
theorem kobpayC10_user_scoped_idempotency
    (db : Db) (u : String) (a : Int) (r : String) (t : Txn) :
    (∀ call, (airtimePurchase db u a r call).result = .idempotent t → t.userId = u) ∧
    (∀ call, (billPay db u a r call).result = .idempotent t → t.userId = u) ∧
    (∀ call, (withdrawal db u a r call).result = .idempotent t → t.userId = u) ∧
    (∀ call, (bettingPurchase db u a r call).result = .idempotent t → t.userId = u) := by
  refine ⟨fun call h => ?_, fun call h => ?_, fun call h => ?_, fun call h => ?_⟩
  · unfold airtimePurchase at h
    by_cases hb : ((getOrCreateWallet db u "NGN").2).balanceKobo < a
    · simp only [hb, if_true] at h
      exact absurd h (by simp)
    · simp only [hb, if_false] at h
      cases hf : findTxn ((getOrCreateWallet db u "NGN").1) "vtuafrica" r u with
      | some e =>
        simp only [hf] at h
        have ht : e = t := by
          by_contra hne
          exact hne (by injection h)
        exact ht ▸ findTxn_userId _ _ _ _ _ hf
      | none =>
        simp only [hf] at h
        by_cases he : txnExists ((getOrCreateWallet db u "NGN").1) "vtuafrica" r = true
        · simp only [he, if_true] at h
          exact absurd h (by simp)
        · simp only [he, if_false] at h
          cases call with
          | error e => exact absurd h (by simp)
          | ok resp =>
            by_cases hs : isVtuCompleted resp = true <;>
              simp only [hs, if_true, if_false, Bool.false_eq_true] at h <;>
              exact absurd h (by simp)
  · unfold billPay at h
    by_cases hb : ((getOrCreateWallet db u "NGN").2).balanceKobo < a
    · simp only [hb, if_true] at h
      exact absurd h (by simp)
    · simp only [hb, if_false] at h
      cases hf : findTxn ((getOrCreateWallet db u "NGN").1) "vtuafrica" r u with
      | some e =>
        simp only [hf] at h
        have ht : e = t := by
          by_contra hne
          exact hne (by injection h)
        exact ht ▸ findTxn_userId _ _ _ _ _ hf
      | none =>
        simp only [hf] at h
        by_cases he : txnExists ((getOrCreateWallet db u "NGN").1) "vtuafrica" r = true
        · simp only [he, if_true] at h
          exact absurd h (by simp)
        · simp only [he, if_false] at h
          cases call with
          | error e => exact absurd h (by simp)
          | ok resp =>
            by_cases hs : toBillStatus resp = "failed" <;>
              simp only [hs, if_true, if_false] at h <;>
              exact absurd h (by simp)
  · unfold withdrawal at h
    cases hw : findWallet db u with
    | none =>
      simp only [hw] at h
      exact absurd h (by simp)
    | some w =>
      simp only [hw] at h
      by_cases hb : w.balanceKobo < a
      · simp only [hb, if_true] at h
        exact absurd h (by simp)
      · simp only [hb, if_false] at h
        cases hf : db.txs.find? (fun t =>
            decide (t.provider = "flutterwave" ∧ t.providerRef = r ∧
              t.userId = u ∧ t.category = "withdrawal")) with
        | some e =>
          simp only [hf] at h
          have ht : e = t := by
            by_contra hne
            exact hne (by injection h)
          have := List.find?_some hf
          simp only [decide_eq_true_eq] at this
          exact ht ▸ this.2.2.1
        | none =>
          simp only [hf] at h
          by_cases he : txnExists db "flutterwave" r = true
          · simp only [he, if_true] at h
            exact absurd h (by simp)
          · simp only [he, if_false] at h
            cases call with
            | error e => exact absurd h (by simp)
            | ok resp =>
              by_cases hs : mapTransferStatus resp = "failed" <;>
                simp only [hs, if_true, if_false] at h <;>
                exact absurd h (by simp)
  · unfold bettingPurchase bettingPrepare at h
    by_cases hb :
        ((getOrCreateWallet db u "NGN").2).balanceKobo < a + 100 * 100
    · simp only [hb, if_true] at h
      exact absurd h (by simp)
    · simp only [hb, if_false] at h
      cases hf : findTxn ((getOrCreateWallet db u "NGN").1) "vtuafrica" r u with
      | some e =>
        simp only [hf] at h
        have ht : e = t := by
          by_contra hne
          exact hne (by injection h)
        exact ht ▸ findTxn_userId _ _ _ _ _ hf
      | none =>
        simp only [hf] at h
        by_cases he : txnExists ((getOrCreateWallet db u "NGN").1) "vtuafrica" r = true
        · simp only [he, if_true] at h
          exact absurd h (by simp)
        · simp only [he, if_false] at h
          exact absurd h (bettingSettle_result_not_idempotent _ _ _ _ _ _)

/-- Witness for C10 at a concrete input: a user whose own prior
transaction carries the reference gets it back through the idempotent
path, and the lookup ownership is certified by the theorem. -/
theorem kobpayC10_user_scoped_idempotency_witness :
    (airtimePurchase
      ⟨[⟨"alice", 1000, "NGN"⟩],
        [⟨0, "alice", "debit", "airtime", 200, 0, 200, "vtuafrica", "ref1", "success"⟩],
        [], 1⟩
      "alice" 200 "ref1" (.error ())).result =
        .idempotent ⟨0, "alice", "debit", "airtime", 200, 0, 200, "vtuafrica", "ref1",
          "success"⟩ ∧
    Txn.userId ⟨0, "alice", "debit", "airtime", 200, 0, 200, "vtuafrica", "ref1",
      "success"⟩ = "alice" :=
  ⟨by decide,
    (kobpayC10_user_scoped_idempotency
      ⟨[⟨"alice", 1000, "NGN"⟩],
        [⟨0, "alice", "debit", "airtime", 200, 0, 200, "vtuafrica", "ref1", "success"⟩],
        [], 1⟩
      "alice" 200 "ref1"
      ⟨0, "alice", "debit", "airtime", 200, 0, 200, "vtuafrica", "ref1", "success"⟩).1
      (.error ()) (by decide)⟩

/-! ## C5: insufficient funds never reaches the provider -/

/-- Claim C5. When the requested amount in kobo exceeds the wallet's
current balance, the airtime flow (flat pre-check) and the betting flow
(pre-check with a 100-naira buffer) both fail with the insufficient
funds rejection before any funds movement: the purchase adapter is
invoked zero times, no transaction row is written, and the balance is
unchanged. -/
theorem kobpayC5_insufficient_funds_no_provider_call
    (db : Db) (u : String) (a : Int) (r : String)
    (call : Except Unit VtuResponse) (betCall : Except Unit BetResponse)
    (h : walletBalance db u < a) :
    ((airtimePurchase db u a r call).result = .insufficientFunds ∧
      (airtimePurchase db u a r call).purchaseCalls = 0 ∧
      ((airtimePurchase db u a r call).db).txs = db.txs ∧
      walletBalance ((airtimePurchase db u a r call).db) u = walletBalance db u) ∧
    ((bettingPurchase db u a r betCall).result = .insufficientFunds ∧
      (bettingPurchase db u a r betCall).purchaseCalls = 0 ∧
      ((bettingPurchase db u a r betCall).db).txs = db.txs ∧
      walletBalance ((bettingPurchase db u a r betCall).db) u = walletBalance db u) := by
  have hb : ((getOrCreateWallet db u "NGN").2).balanceKobo < a := by
    rw [getOrCreateWallet_snd_balance]
    exact h
  have hbBuf : ((getOrCreateWallet db u "NGN").2).balanceKobo < a + 100 * 100 := by
    have : (0 : Int) < 100 * 100 := by norm_num
    omega
  constructor
  · unfold airtimePurchase
    simp only [hb, if_true]
    exact ⟨trivial, trivial, getOrCreateWallet_txs db u "NGN",
      walletBalance_getOrCreate_self db u "NGN"⟩
  · unfold bettingPurchase bettingPrepare
    simp only [hbBuf, if_true]
    exact ⟨trivial, trivial, getOrCreateWallet_txs db u "NGN",
      walletBalance_getOrCreate_self db u "NGN"⟩

/-- Witness for C5 at a concrete input: a wallet with 10 naira asked to
settle 50 naira. -/
theorem kobpayC5_insufficient_funds_no_provider_call_witness :
    walletBalance ⟨[⟨"u1", 1000, "NGN"⟩], [], [], 0⟩ "u1" < 5000 ∧
    (airtimePurchase ⟨[⟨"u1", 1000, "NGN"⟩], [], [], 0⟩ "u1" 5000 "r1"
      (.ok ⟨101, "Completed"⟩)).result = .insufficientFunds ∧
    (bettingPurchase ⟨[⟨"u1", 1000, "NGN"⟩], [], [], 0⟩ "u1" 5000 "r1"
      (.ok ⟨⟨101, "Completed"⟩, none, none, none⟩)).result = .insufficientFunds :=
  have h : walletBalance ⟨[⟨"u1", 1000, "NGN"⟩], [], [], 0⟩ "u1" < 5000 := by decide
  have main := kobpayC5_insufficient_funds_no_provider_call
    ⟨[⟨"u1", 1000, "NGN"⟩], [], [], 0⟩ "u1" 5000 "r1"
    (.ok ⟨101, "Completed"⟩) (.ok ⟨⟨101, "Completed"⟩, none, none, none⟩) h
  ⟨h, main.1.1, main.2.1⟩

/-! ## Update lemmas for balances and transaction rows -/

theorem findWallet_walletIncrement (db : Db) (w u : String) (amt : Int) :
    findWallet (walletIncrement db w amt) u =
      (findWallet db u).map
        (fun x => if x.userId = w then { x with balanceKobo := x.balanceKobo + amt } else x) := by
  have huser : ∀ x : Wallet,
      ((if x.userId = w then { x with balanceKobo := x.balanceKobo + amt } else x) : Wallet).userId
        = x.userId := by
    intro x
    by_cases hw : x.userId = w <;> simp [hw]
  unfold findWallet walletIncrement
  show List.find? _ (db.wallets.map _) = _
  induction db.wallets with
  | nil => rfl
  | cons x l ih =>
    simp only [List.map_cons]
    by_cases hu : x.userId = u
    · rw [List.find?_cons_of_pos _
          (by simp only [decide_eq_true_eq, huser x]; exact hu),
        List.find?_cons_of_pos _ (by simp only [decide_eq_true_eq]; exact hu)]
      rfl
    · rw [List.find?_cons_of_neg _
          (by simp only [decide_eq_true_eq, huser x]; exact hu),
        List.find?_cons_of_neg _ (by simp only [decide_eq_true_eq]; exact hu)]
      exact ih

theorem walletBalance_walletIncrement (db : Db) (w u : String) (amt : Int) :
    walletBalance (walletIncrement db w amt) u =
      walletBalance db u + (if u = w ∧ (findWallet db u).isSome then amt else 0) := by
  unfold walletBalance
  rw [findWallet_walletIncrement]
  cases h : findWallet db u with
  | none => simp
  | some x =>
    have hx : x.userId = u := by
      have := List.find?_some h
      simpa using this
    by_cases hw : u = w
    · subst hw
      simp [hx, h]
    · have : ¬ x.userId = w := by rw [hx]; exact hw
      simp [this, hw, h]

theorem walletIncrement_txs (db : Db) (w : String) (amt : Int) :
    (walletIncrement db w amt).txs = db.txs := rfl

theorem walletIncrement_events (db : Db) (w : String) (amt : Int) :
    (walletIncrement db w amt).events = db.events := rfl

theorem map_update_fresh (l : List Txn) (i : Nat) (f : Txn → Txn)
    (hid : ∀ t2 ∈ l, t2.id ≠ i) :
    l.map (fun x => if x.id = i then f x else x) = l := by
  induction l with
  | nil => rfl
  | cons a l ih =>
    have ha : a.id ≠ i := hid a (by simp)
    simp only [List.map_cons, ha, if_false]
    rw [ih (fun t2 ht2 => hid t2 (by simp [ht2]))]

theorem map_update_append (l : List Txn) (t : Txn) (f : Txn → Txn)
    (hid : ∀ t2 ∈ l, t2.id ≠ t.id) :
    (l ++ [t]).map (fun x => if x.id = t.id then f x else x) = l ++ [f t] := by
  rw [List.map_append, map_update_fresh l t.id f hid]
  simp

theorem updateTxn_wallets (db : Db) (i : Nat) (f : Txn → Txn) :
    (updateTxn db i f).wallets = db.wallets := rfl

theorem updateTxn_events (db : Db) (i : Nat) (f : Txn → Txn) :
    (updateTxn db i f).events = db.events := rfl

theorem walletBalance_updateTxn (db : Db) (i : Nat) (f : Txn → Txn) (u : String) :
    walletBalance (updateTxn db i f) u = walletBalance db u := rfl

theorem walletBalance_createTxn (db : Db) (mk : Nat → Txn) (u : String) :
    walletBalance ((createTxn db mk).1) u = walletBalance db u := rfl

theorem walletBalance_createEvent (db : Db) (e : WEvent) (u : String) :
    walletBalance (createEvent db e) u = walletBalance db u := rfl

theorem walletBalance_updateEvent (db : Db) (p r s u : String) :
    walletBalance (updateEvent db p r s) u = walletBalance db u := rfl

/-! ## C6: webhook delivery idempotency -/

/-- Claim C6. When the computed (provider, reference) pair of an inbound
Flutterwave webhook already has a WebhookEvent row, the handler (once
past the signature gate) acknowledges the duplicate immediately: the
store is returned unchanged and no transaction or wallet mutation
happens. -/
theorem kobpayC6_webhook_dedup
    (hmac256 : String → String → String) (secret : Option String)
    (rawBody : String) (sigHeader legacyHeader : Option String)
    (flwCurrency : String) (p : FlwPayload) (freshRef : String) (db : Db) (e : WEvent)
    (hsig : flwSignatureOk hmac256 secret rawBody sigHeader legacyHeader = true)
    (hdup : findEvent db "flutterwave" (flwReference p freshRef) = some e) :
    handleFlutterwaveWebhook hmac256 secret rawBody sigHeader legacyHeader
      flwCurrency p freshRef db = (db, .duplicate) := by
  unfold handleFlutterwaveWebhook
  simp only [hsig, not_true, if_false, hdup, ite_false, Bool.false_eq_true,
    not_false_eq_true, ite_true]

/-- Witness for C6 at a concrete input: redelivering an event whose
reference fw1 is already recorded leaves the store untouched. -/
theorem kobpayC6_webhook_dedup_witness :
    flwSignatureOk (fun _ _ => "h") none "" none none = true ∧
    handleFlutterwaveWebhook (fun _ _ => "h") none "" none none "NGN"
      ⟨some "charge.completed",
        ⟨some "fw1", none, none, some "tx9", some "successful", none, 250, 0, none⟩,
        some "u1", none, none⟩
      "fresh"
      ⟨[⟨"u1", 1000, "NGN"⟩], [], [⟨"flutterwave", "fw1", "charge.completed", "PROCESSED"⟩], 0⟩ =
      (⟨[⟨"u1", 1000, "NGN"⟩], [], [⟨"flutterwave", "fw1", "charge.completed", "PROCESSED"⟩], 0⟩,
        .duplicate) :=
  ⟨by decide,
    kobpayC6_webhook_dedup (fun _ _ => "h") none "" none none "NGN"
      ⟨some "charge.completed",
        ⟨some "fw1", none, none, some "tx9", some "successful", none, 250, 0, none⟩,
        some "u1", none, none⟩
      "fresh"
      ⟨[⟨"u1", 1000, "NGN"⟩], [], [⟨"flutterwave", "fw1", "charge.completed", "PROCESSED"⟩], 0⟩
      ⟨"flutterwave", "fw1", "charge.completed", "PROCESSED"⟩
      (by decide) (by decide)⟩

/-! ## C9: webhook signature enforcement (corrected) -/

/-- Counterexample to claim C9 as stated: the VTUAfrica endpoint has its
secret configured, the inbound payload carries no apikey at all, and yet
the request is not rejected — the handler runs its business logic and
mutates the store (it records a WebhookEvent and, here, even refunds a
matched bills transaction). -/
theorem kobpayC9_counterexample :
    (handleVtuWebhook (fun s => s) (some "vtu-api-key")
        ⟨none, some "r1", none, none, some "fail"⟩
        ⟨[⟨"u1", 1000, "NGN"⟩],
          [⟨0, "u1", "debit", "bills", 500, 0, 500, "vtuafrica", "r1", "pending"⟩],
          [], 1⟩).2 ≠ .invalidSignature ∧
    (handleVtuWebhook (fun s => s) (some "vtu-api-key")
        ⟨none, some "r1", none, none, some "fail"⟩
        ⟨[⟨"u1", 1000, "NGN"⟩],
          [⟨0, "u1", "debit", "bills", 500, 0, 500, "vtuafrica", "r1", "pending"⟩],
          [], 1⟩).1 ≠
      ⟨[⟨"u1", 1000, "NGN"⟩],
        [⟨0, "u1", "debit", "bills", 500, 0, 500, "vtuafrica", "r1", "pending"⟩],
        [], 1⟩ := by
  constructor <;> decide

/-- Claim C9 as amended: for the Flutterwave handler with a configured
secret, a request whose signature gate fails (missing both headers, or a
failing comparison) is rejected with the WebhookInvalid error and causes
no state change; the VTUAfrica handler rejects a present-but-mismatched
apikey the same way, but verifies nothing when the payload carries no
apikey. -/
theorem kobpayC9_signature_enforcement_amended
    (hmac256 : String → String → String) (md5hex : String → String)
    (sec rawBody : String) (sigHeader legacyHeader : Option String)
    (flwCurrency : String) (p : FlwPayload) (freshRef : String) (db : Db)
    (vp : VtuHookPayload) (key hash : String) :
    (flwSignatureOk hmac256 (some sec) rawBody sigHeader legacyHeader = false →
      handleFlutterwaveWebhook hmac256 (some sec) rawBody sigHeader legacyHeader
        flwCurrency p freshRef db = (db, .invalidSignature)) ∧
    (vp.apikey = some hash → md5hex key ≠ hash →
      handleVtuWebhook md5hex (some key) vp db = (db, .invalidSignature)) := by
  constructor
  · intro hsig
    unfold handleFlutterwaveWebhook
    simp [hsig]
  · intro hk hne
    unfold handleVtuWebhook vtuSignatureOk
    rw [hk]
    simp only [safeCompare, beq_iff_eq, hne]
    simp

/-- Witness for the amended C9 at concrete inputs: a wrong Flutterwave
signature header and a wrong VTUAfrica apikey hash are both rejected
without touching the store. -/
theorem kobpayC9_signature_enforcement_amended_witness :
    flwSignatureOk (fun _ _ => "good") (some "sec") "body" (some "bad") none = false ∧
    handleFlutterwaveWebhook (fun _ _ => "good") (some "sec") "body" (some "bad") none
      "NGN"
      ⟨some "charge.completed",
        ⟨some "fw1", none, none, none, some "successful", none, 250, 0, none⟩,
        some "u1", none, none⟩
      "fresh" ⟨[⟨"u1", 1000, "NGN"⟩], [], [], 0⟩ =
      (⟨[⟨"u1", 1000, "NGN"⟩], [], [], 0⟩, .invalidSignature) ∧
    handleVtuWebhook (fun s => s ++ "#") (some "key")
      ⟨some "wrong", some "r1", none, none, some "fail"⟩
      ⟨[⟨"u1", 1000, "NGN"⟩], [], [], 0⟩ =
      (⟨[⟨"u1", 1000, "NGN"⟩], [], [], 0⟩, .invalidSignature) :=
  have main := kobpayC9_signature_enforcement_amended
    (fun _ _ => "good") (fun s => s ++ "#") "sec" "body" (some "bad") none "NGN"
    ⟨some "charge.completed",
      ⟨some "fw1", none, none, none, some "successful", none, 250, 0, none⟩,
      some "u1", none, none⟩
    "fresh" ⟨[⟨"u1", 1000, "NGN"⟩], [], [], 0⟩
    ⟨some "wrong", some "r1", none, none, some "fail"⟩ "key" "wrong"
  ⟨by decide, main.1 (by decide), main.2 rfl (by decide)⟩

/-! ## C4: compensation on provider exception (corrected) -/

theorem findWallet_getOrCreate_isSome (db : Db) (u c : String) :
    (findWallet ((getOrCreateWallet db u c).1) u).isSome := by
  unfold getOrCreateWallet
  cases h : findWallet db u with
  | some w => simp [h]
  | none =>
    show (findWallet { db with wallets := db.wallets ++ [⟨u, 0, c⟩] } u).isSome
    rw [findWallet_append_self db u c h]
    rfl

theorem findWallet_createTxn (db : Db) (mk : Nat → Txn) (u : String) :
    findWallet ((createTxn db mk).1) u = findWallet db u := rfl

theorem getOrCreateWallet_nextId (db : Db) (u c : String) :
    ((getOrCreateWallet db u c).1).nextId = db.nextId := by
  unfold getOrCreateWallet
  cases findWallet db u <;> rfl

theorem walletBalance_inc_self (db : Db) (u : String) (amt : Int)
    (h : (findWallet db u).isSome) :
    walletBalance (walletIncrement db u amt) u = walletBalance db u + amt := by
  rw [walletBalance_walletIncrement]
  simp [h]

theorem findWallet_walletIncrement_isSome (db : Db) (w u : String) (amt : Int)
    (h : (findWallet db u).isSome) :
    (findWallet (walletIncrement db w amt) u).isSome := by
  rw [findWallet_walletIncrement]
  cases hf : findWallet db u with
  | some x => rfl
  | none => rw [hf] at h; exact absurd h (by simp)

/-- Counterexample to claim C4 as stated: in the airtime flow, a wallet
holding 1000 kobo settles 500 kobo and the provider call throws; the
flow leaves the transaction in status pending with the 500 kobo still
debited — it is not marked failed and no compensating refund is applied. -/
theorem kobpayC4_counterexample :
    walletBalance
      ((airtimePurchase ⟨[⟨"u1", 1000, "NGN"⟩], [], [], 0⟩ "u1" 500 "r1"
        (.error ())).db) "u1" = 500 ∧
    ((airtimePurchase ⟨[⟨"u1", 1000, "NGN"⟩], [], [], 0⟩ "u1" 500 "r1"
        (.error ())).db).txs =
      [⟨0, "u1", "debit", "airtime", 500, 0, 500, "vtuafrica", "r1", "pending"⟩] := by
  constructor <;> decide

/-- Claim C4 as amended: compensation on a thrown provider call holds
for the withdrawal flow (and the generic bill-pay flow, which shares the
same catch shape) — the catch path refunds the exact debited amount and
marks the row failed in one atomic unit — but not for the VTU purchase
flows (airtime, data, cable, electricity): there the catch only
rethrows, leaving the row pending and the wallet debited. -/
theorem kobpayC4_exception_compensation_amended
    (db : Db) (u : String) (a : Int) (r : String) :
    ((∀ w, findWallet db u = some w → ¬ w.balanceKobo < a →
      db.txs.find? (fun t =>
        decide (t.provider = "flutterwave" ∧ t.providerRef = r ∧
          t.userId = u ∧ t.category = "withdrawal")) = none →
      txnExists db "flutterwave" r = false →
      (∀ t2 ∈ db.txs, t2.id ≠ db.nextId) →
      walletBalance ((withdrawal db u a r (.error ())).db) u = walletBalance db u ∧
      ((withdrawal db u a r (.error ())).db).txs =
        db.txs ++
          [⟨db.nextId, u, "debit", "withdrawal", a, 0, a, "flutterwave", r, "failed"⟩] ∧
      (withdrawal db u a r (.error ())).result =
        .providerException
          ⟨db.nextId, u, "debit", "withdrawal", a, 0, a, "flutterwave", r, "failed"⟩)) ∧
    ((¬ walletBalance db u < a → findTxn db "vtuafrica" r u = none →
      txnExists db "vtuafrica" r = false →
      walletBalance ((airtimePurchase db u a r (.error ())).db) u =
        walletBalance db u - a ∧
      ((airtimePurchase db u a r (.error ())).db).txs =
        db.txs ++
          [⟨db.nextId, u, "debit", "airtime", a, 0, a, "vtuafrica", r, "pending"⟩] ∧
      (airtimePurchase db u a r (.error ())).result =
        .providerException
          ⟨db.nextId, u, "debit", "airtime", a, 0, a, "vtuafrica", r, "pending"⟩)) := by
  constructor
  · intro w hw hb hfind hex hid
    unfold withdrawal
    simp only [hw, hb, if_false, hfind, hex, Bool.false_eq_true, not_false_eq_true,
      ite_true, ite_false]
    refine ⟨?_, ?_, rfl⟩
    · rw [walletBalance_updateTxn, walletBalance_inc_self, walletBalance_createTxn,
        walletBalance_inc_self]
      · ring
      · simp [hw]
      · rw [findWallet_createTxn]
        exact findWallet_walletIncrement_isSome db u u (-a) (by simp [hw])
    · show (updateTxn _ _ _).txs = _
      unfold updateTxn
      show List.map _ ((walletIncrement _ u a).txs) = _
      rw [walletIncrement_txs]
      show List.map _ (db.txs ++ [_]) = _
      exact map_update_append db.txs _ _ hid
  · intro hb hfind hex
    have hb2 : ¬ ((getOrCreateWallet db u "NGN").2).balanceKobo < a := by
      rw [getOrCreateWallet_snd_balance]
      exact hb
    have hfind2 : findTxn ((getOrCreateWallet db u "NGN").1) "vtuafrica" r u = none := by
      rw [getOrCreateWallet_findTxn]
      exact hfind
    have hex2 : txnExists ((getOrCreateWallet db u "NGN").1) "vtuafrica" r = false := by
      rw [getOrCreateWallet_txnExists]
      exact hex
    have hnext : (walletIncrement ((getOrCreateWallet db u "NGN").1) u (-a)).nextId
        = db.nextId := getOrCreateWallet_nextId db u "NGN"
    unfold airtimePurchase
    simp only [hb2, hfind2, hex2, if_false, Bool.false_eq_true, not_false_eq_true,
      ite_true, ite_false]
    refine ⟨?_, ?_, ?_⟩
    · rw [walletBalance_createTxn, walletBalance_inc_self, walletBalance_getOrCreate_self]
      · ring
      · exact findWallet_getOrCreate_isSome db u "NGN"
    · show ((createTxn (walletIncrement _ u (-a)) _).1).txs = _
      unfold createTxn
      show (walletIncrement _ u (-a)).txs ++ _ = _
      rw [walletIncrement_txs, getOrCreateWallet_txs]
      simp only [hnext]
    · show SettleResult.providerException _ = _
      unfold createTxn
      simp only [hnext]

/-- Witness for the amended C4 at a concrete input: a thrown transfer
call in the withdrawal flow restores the balance and lands the row in
failed, while the same event in the airtime flow leaves the debit
outstanding and the row pending. -/
theorem kobpayC4_exception_compensation_amended_witness :
    (walletBalance ((withdrawal ⟨[⟨"u1", 1000, "NGN"⟩], [], [], 0⟩ "u1" 500 "w1"
        (.error ())).db) "u1" = 1000 ∧
      ((withdrawal ⟨[⟨"u1", 1000, "NGN"⟩], [], [], 0⟩ "u1" 500 "w1"
        (.error ())).db).txs =
        [⟨0, "u1", "debit", "withdrawal", 500, 0, 500, "flutterwave", "w1", "failed"⟩]) ∧
    walletBalance ((airtimePurchase ⟨[⟨"u1", 1000, "NGN"⟩], [], [], 0⟩ "u1" 500 "w1"
        (.error ())).db) "u1" = 500 :=
  have main := kobpayC4_exception_compensation_amended
    ⟨[⟨"u1", 1000, "NGN"⟩], [], [], 0⟩ "u1" 500 "w1"
  have hwd := main.1 ⟨"u1", 1000, "NGN"⟩ (by decide) (by decide) (by decide) (by decide)
    (by intro t2 ht2 _; simp at ht2)
  have hair := main.2 (by decide) (by decide) (by decide)
  ⟨⟨hwd.1, hwd.2.1⟩, hair.1⟩

/-! ## C8: variable-cost betting settlement (corrected) -/

/-- Counterexample to claim C8 as stated: in the betting flow the
reserve phase does not debit the estimated amount. With a wallet of
100000 kobo and an estimate of 20000 kobo, the phase that precedes the
provider call hands the call a pending transaction while the balance is
still the full 100000 — no reservation was debited, so the later step
debits the full actual charge rather than a delta, and the failure path
has no reservation to refund. -/
theorem kobpayC8_counterexample :
    (bettingPrepare ⟨[⟨"u1", 100000, "NGN"⟩], [], [], 0⟩ "u1" 20000 "rb").2 =
      .proceed ⟨0, "u1", "debit", "betting", 20000, 0, 20000, "vtuafrica", "rb",
        "pending"⟩ ∧
    walletBalance ((bettingPrepare ⟨[⟨"u1", 100000, "NGN"⟩], [], [], 0⟩
      "u1" 20000 "rb").1) "u1" = 100000 := by
  constructor <;> decide

/-- Claim C8 as amended: the betting flow creates the pending row
without debiting any reservation (the balance is unchanged when the
provider is called); after a successful provider response reporting the
actual charged amount, one atomic step verifies the fresh balance covers
the full actual charge, debits that full amount, and rewrites the row's
amount, fee and total to the actual figures before marking success; if
the fresh balance cannot cover the actual charge, the row is marked
failed, the distinct insufficient-funds-for-provider-charge error is
surfaced, and the balance is left untouched (there is no reservation to
refund). -/
theorem kobpayC8_variable_cost_amended (db : Db) (u : String) (a : Int) (r : String)
    (t : Txn) (cNgn reqNgn : Int) (base : VtuResponse) :
    ((¬ walletBalance db u < a + 100 * 100) → findTxn db "vtuafrica" r u = none →
      txnExists db "vtuafrica" r = false →
      (bettingPrepare db u a r).2 =
        .proceed ⟨db.nextId, u, "debit", "betting", a, 0, a, "vtuafrica", r, "pending"⟩ ∧
      walletBalance ((bettingPrepare db u a r).1) u = walletBalance db u) ∧
    (isVtuCompleted base = true → (findWallet db u).isSome →
      ¬ walletBalance db u < cNgn * 100 →
      (bettingSettle db u a t (.ok ⟨base, some reqNgn, none, some cNgn⟩)).result =
        .ok { t with
              amountKobo := cNgn * 100,
              feeKobo := max 0 (cNgn * 100 - reqNgn * 100),
              totalKobo := cNgn * 100,
              status := "success" } ∧
      walletBalance ((bettingSettle db u a t
          (.ok ⟨base, some reqNgn, none, some cNgn⟩)).db) u =
        walletBalance db u - cNgn * 100) ∧
    (isVtuCompleted base = true → walletBalance db u < cNgn * 100 →
      (bettingSettle db u a t (.ok ⟨base, some reqNgn, none, some cNgn⟩)).result =
        .chargeInsufficient { t with status := "failed" } ∧
      walletBalance ((bettingSettle db u a t
          (.ok ⟨base, some reqNgn, none, some cNgn⟩)).db) u =
        walletBalance db u) := by
  refine ⟨fun hb hfind hex => ?_, fun hs hw hfr => ?_, fun hs hfr => ?_⟩
  · have hb2 : ¬ ((getOrCreateWallet db u "NGN").2).balanceKobo < a + 100 * 100 := by
      rw [getOrCreateWallet_snd_balance]
      exact hb
    have hfind2 : findTxn ((getOrCreateWallet db u "NGN").1) "vtuafrica" r u = none := by
      rw [getOrCreateWallet_findTxn]
      exact hfind
    have hex2 : txnExists ((getOrCreateWallet db u "NGN").1) "vtuafrica" r = false := by
      rw [getOrCreateWallet_txnExists]
      exact hex
    have hnext : ((getOrCreateWallet db u "NGN").1).nextId = db.nextId :=
      getOrCreateWallet_nextId db u "NGN"
    unfold bettingPrepare
    simp only [hb2, hfind2, hex2, if_false, Bool.false_eq_true, not_false_eq_true,
      ite_true, ite_false]
    constructor
    · show BetPrep.proceed _ = _
      unfold createTxn
      simp only [hnext]
    · rw [walletBalance_createTxn, walletBalance_getOrCreate_self]
  · unfold bettingSettle
    simp only [hs, not_true, if_false, ite_false, Option.map_some, Option.getD_some, hfr,
      Bool.true_eq_false, not_false_eq_true, ite_true]
    constructor
    · rfl
    · rw [walletBalance_updateTxn, walletBalance_inc_self db u _ hw]
      ring
  · unfold bettingSettle
    simp only [hs, not_true, if_false, ite_false, Option.map_some, Option.getD_some, hfr,
      Bool.true_eq_false, not_false_eq_true, ite_true]
    exact ⟨trivial, walletBalance_updateTxn db t.id _ u⟩

/-- Witness for the amended C8 at concrete inputs, following the spec's
own scenario: estimate 500 naira, actual charge 520 naira. A wallet
holding 52100 kobo settles successfully with the full 52000 debited and
the row rewritten to the actual amount; a wallet holding 51100 kobo is
rejected with the distinct provider-charge error and its balance
untouched; and in both cases the reserve phase never debited anything. -/
theorem kobpayC8_variable_cost_amended_witness :
    ((bettingPrepare ⟨[⟨"u1", 100000, "NGN"⟩], [], [], 0⟩ "u1" 50000 "rb").2 =
      .proceed ⟨0, "u1", "debit", "betting", 50000, 0, 50000, "vtuafrica", "rb",
        "pending"⟩ ∧
      walletBalance ((bettingPrepare ⟨[⟨"u1", 100000, "NGN"⟩], [], [], 0⟩
        "u1" 50000 "rb").1) "u1" = 100000) ∧
    (bettingSettle ⟨[⟨"u1", 52100, "NGN"⟩],
        [⟨0, "u1", "debit", "betting", 50000, 0, 50000, "vtuafrica", "rb", "pending"⟩],
        [], 1⟩
      "u1" 50000
      ⟨0, "u1", "debit", "betting", 50000, 0, 50000, "vtuafrica", "rb", "pending"⟩
      (.ok ⟨⟨101, "Completed"⟩, some 500, none, some 520⟩)).result =
      .ok ⟨0, "u1", "debit", "betting", 52000, 2000, 52000, "vtuafrica", "rb",
        "success"⟩ ∧
    (bettingSettle ⟨[⟨"u1", 51100, "NGN"⟩],
        [⟨0, "u1", "debit", "betting", 50000, 0, 50000, "vtuafrica", "rb", "pending"⟩],
        [], 1⟩
      "u1" 50000
      ⟨0, "u1", "debit", "betting", 50000, 0, 50000, "vtuafrica", "rb", "pending"⟩
      (.ok ⟨⟨101, "Completed"⟩, some 500, none, some 520⟩)).result =
      .chargeInsufficient ⟨0, "u1", "debit", "betting", 50000, 0, 50000, "vtuafrica",
        "rb", "failed"⟩ :=
  have h1 := (kobpayC8_variable_cost_amended ⟨[⟨"u1", 100000, "NGN"⟩], [], [], 0⟩
    "u1" 50000 "rb"
    ⟨0, "u1", "debit", "betting", 50000, 0, 50000, "vtuafrica", "rb", "pending"⟩
    520 500 ⟨101, "Completed"⟩).1 (by decide) (by decide) (by decide)
  have h2 := (kobpayC8_variable_cost_amended
    ⟨[⟨"u1", 52100, "NGN"⟩],
      [⟨0, "u1", "debit", "betting", 50000, 0, 50000, "vtuafrica", "rb", "pending"⟩],
      [], 1⟩
    "u1" 50000 "rb"
    ⟨0, "u1", "debit", "betting", 50000, 0, 50000, "vtuafrica", "rb", "pending"⟩
    520 500 ⟨101, "Completed"⟩).2.1 (by decide) (by decide) (by decide)
  have h3 := (kobpayC8_variable_cost_amended
    ⟨[⟨"u1", 51100, "NGN"⟩],
      [⟨0, "u1", "debit", "betting", 50000, 0, 50000, "vtuafrica", "rb", "pending"⟩],
      [], 1⟩
    "u1" 50000 "rb"
    ⟨0, "u1", "debit", "betting", 50000, 0, 50000, "vtuafrica", "rb", "pending"⟩
    520 500 ⟨101, "Completed"⟩).2.2 (by decide) (by decide)
  ⟨h1, h2.1, h3.1⟩

/-! ## C2: the webhook refund is not conditioned on the current status -/

/-- Claim C2 evaluated at its failing input. A generic bill payment of
500 kobo from a 1000 kobo wallet is declined by the provider: the
orchestrator's own failure path marks the row failed and refunds once,
restoring the balance to 1000. A later VTUAfrica webhook then reports
failure for the same providerRef: handleVtuWebhook finds the already
failed row and, because its refund step checks only the incoming mapped
status and not the row's current status, credits the 500 kobo again —
the wallet ends at 1500, two compensating credits for one debit. -/
theorem kobpayC2_double_refund_eval :
    walletBalance ((billPay ⟨[⟨"u1", 1000, "NGN"⟩], [], [], 0⟩ "u1" 500 "r1"
      (.ok ⟨104, "failed"⟩)).db) "u1" = 1000 ∧
    ((billPay ⟨[⟨"u1", 1000, "NGN"⟩], [], [], 0⟩ "u1" 500 "r1"
      (.ok ⟨104, "failed"⟩)).db).txs =
      [⟨0, "u1", "debit", "bills", 500, 0, 500, "vtuafrica", "r1", "failed"⟩] ∧
    walletBalance ((handleVtuWebhook (fun s => s) none
      ⟨none, some "r1", none, none, some "fail"⟩
      ((billPay ⟨[⟨"u1", 1000, "NGN"⟩], [], [], 0⟩ "u1" 500 "r1"
        (.ok ⟨104, "failed"⟩)).db)).1) "u1" = 1500 := by
  refine ⟨by decide, by decide, by decide⟩

/-! ## C7: the funding ledger guard does not stop the credit -/

/-- Claim C7 evaluated at its failing input. The store already holds the
credit transaction (flutterwave, fw1) from an earlier funding of 25000
kobo, but no WebhookEvent under that reference — the event-level dedup
guard is bypassed. A successful charge.completed delivery for the same
providerRef then runs the funding branch: the wallet upsert increments
the balance to 50000 before the transaction insert collides on the
(provider, providerRef) unique index; the collision is swallowed with a
plain return, so the interactive transaction commits the increment. The
ledger gains no second row (length still 1, and the event is left in
RECEIVED), but the balance has been credited a second time. -/
theorem kobpayC7_ledger_guard_eval :
    walletBalance ((handleFlutterwaveWebhook (fun _ _ => "h") none "" none none "NGN"
      ⟨some "charge.completed",
        ⟨some "fw1", none, none, some "tx9", some "successful", none, 250, 0, none⟩,
        some "u1", none, none⟩
      "fresh"
      ⟨[⟨"u1", 25000, "NGN"⟩],
        [⟨0, "u1", "credit", "wallet_funding", 25000, 0, 25000, "flutterwave", "fw1",
          "successful"⟩],
        [], 1⟩).1) "u1" = 50000 ∧
    ((handleFlutterwaveWebhook (fun _ _ => "h") none "" none none "NGN"
      ⟨some "charge.completed",
        ⟨some "fw1", none, none, some "tx9", some "successful", none, 250, 0, none⟩,
        some "u1", none, none⟩
      "fresh"
      ⟨[⟨"u1", 25000, "NGN"⟩],
        [⟨0, "u1", "credit", "wallet_funding", 25000, 0, 25000, "flutterwave", "fw1",
          "successful"⟩],
        [], 1⟩).1).txs.length = 1 ∧
    ((handleFlutterwaveWebhook (fun _ _ => "h") none "" none none "NGN"
      ⟨some "charge.completed",
        ⟨some "fw1", none, none, some "tx9", some "successful", none, 250, 0, none⟩,
        some "u1", none, none⟩
      "fresh"
      ⟨[⟨"u1", 25000, "NGN"⟩],
        [⟨0, "u1", "credit", "wallet_funding", 25000, 0, 25000, "flutterwave", "fw1",
          "successful"⟩],
        [], 1⟩).1).events =
      [⟨"flutterwave", "fw1", "charge.completed", "RECEIVED"⟩] := by
  refine ⟨by decide, by decide, by decide⟩

/-! ## C3: idempotent retry of a settlement command (corrected) -/

theorem getOrCreateWallet_of_some (db : Db) (u c : String) (w : Wallet)
    (hw : findWallet db u = some w) : getOrCreateWallet db u c = (db, w) := by
  unfold getOrCreateWallet
  rw [hw]

theorem findTxn_spec (db : Db) (p r v : String) (t : Txn)
    (h : findTxn db p r v = some t) :
    t.provider = p ∧ t.providerRef = r ∧ t.userId = v := by
  unfold findTxn at h
  have := List.find?_some h
  simpa using this

theorem findTxn_append_found (db2 : Db) (dbTxs : List Txn) (row : Txn) (p r v : String)
    (htxs : db2.txs = dbTxs ++ [row])
    (hnone : (dbTxs.find? (fun t =>
      decide (t.provider = p ∧ t.providerRef = r ∧ t.userId = v))) = none)
    (hrow : row.provider = p ∧ row.providerRef = r ∧ row.userId = v) :
    findTxn db2 p r v = some row := by
  unfold findTxn
  rw [htxs, List.find?_append, hnone]
  simp [hrow.1, hrow.2.1, hrow.2.2]

/-- Second invocation of the airtime flow when a matching transaction is
already present: the store is returned unchanged and the provider is not
called; when the remaining balance still passes the pre-check, the
result is the idempotent return of the stored row. -/
theorem airtime_second_run (r1db : Db) (u : String) (a : Int) (ref : String)
    (call2 : Except Unit VtuResponse) (w2 : Wallet) (row : Txn)
    (hw2 : findWallet r1db u = some w2)
    (hfound : findTxn r1db "vtuafrica" ref u = some row) :
    (airtimePurchase r1db u a ref call2).db = r1db ∧
    (airtimePurchase r1db u a ref call2).purchaseCalls = 0 ∧
    (¬ walletBalance r1db u < a →
      (airtimePurchase r1db u a ref call2).result = .idempotent row) := by
  unfold airtimePurchase
  rw [getOrCreateWallet_of_some r1db u "NGN" w2 hw2]
  by_cases hb : w2.balanceKobo < a
  · simp only [hb, if_true]
    refine ⟨trivial, trivial, fun hnb => absurd ?_ hnb⟩
    unfold walletBalance
    rw [hw2]
    exact hb
  · simp only [hb, if_false, hfound, Bool.false_eq_true, not_false_eq_true, ite_true,
      ite_false]
    exact ⟨trivial, trivial, fun _ => trivial⟩

/-- Counterexample to claim C3 as stated: wallet of exactly 500 kobo,
command for 500 kobo. The first invocation succeeds and drains the
wallet; the retried identical command is rejected as InsufficientFunds
by the pre-check that runs before the idempotency lookup — it does not
find and return the original transaction. -/
theorem kobpayC3_counterexample :
    (airtimePurchase ⟨[⟨"u1", 500, "NGN"⟩], [], [], 0⟩ "u1" 500 "r1"
      (.ok ⟨101, "Completed"⟩)).result =
      .ok ⟨0, "u1", "debit", "airtime", 500, 0, 500, "vtuafrica", "r1", "success"⟩ ∧
    (airtimePurchase ((airtimePurchase ⟨[⟨"u1", 500, "NGN"⟩], [], [], 0⟩ "u1" 500 "r1"
      (.ok ⟨101, "Completed"⟩)).db) "u1" 500 "r1" (.ok ⟨101, "Completed"⟩)).result =
      .insufficientFunds := by
  refine ⟨by decide, by decide⟩

/-- Claim C3 as amended: a retried settlement command under the same
reference never debits twice, never calls the provider again, and never
writes a second row — and when the remaining balance still passes the
pre-check that precedes the idempotency lookup, the retry returns a
stored transaction carrying the same reference and user as the original;
a retry against a now-insufficient balance is instead rejected as
InsufficientFunds before the lookup runs. In every case the store is
unchanged by the retry, there is exactly one transaction row, and a
successful first run decremented the balance exactly once. -/
theorem kobpayC3_idempotent_retry_amended (db : Db) (u : String) (a : Int) (ref : String)
    (call1 call2 : Except Unit VtuResponse)
    (h0 : 0 < a) (hb : ¬ walletBalance db u < a)
    (hfresh : findTxn db "vtuafrica" ref u = none)
    (hex : txnExists db "vtuafrica" ref = false)
    (hid : ∀ t2 ∈ db.txs, t2.id ≠ db.nextId) :
    ((airtimePurchase db u a ref call1).db).txs.length = db.txs.length + 1 ∧
    (airtimePurchase ((airtimePurchase db u a ref call1).db) u a ref call2).db =
      (airtimePurchase db u a ref call1).db ∧
    (airtimePurchase ((airtimePurchase db u a ref call1).db) u a ref
      call2).purchaseCalls = 0 ∧
    (∀ resp, call1 = .ok resp → isVtuCompleted resp = true →
      walletBalance ((airtimePurchase db u a ref call1).db) u = walletBalance db u - a) ∧
    (¬ walletBalance ((airtimePurchase db u a ref call1).db) u < a →
      ∃ t, (airtimePurchase ((airtimePurchase db u a ref call1).db) u a ref
          call2).result = .idempotent t ∧ t.providerRef = ref ∧ t.userId = u) := by
  obtain ⟨w, hw⟩ : ∃ w, findWallet db u = some w := by
    cases hfw : findWallet db u with
    | some w => exact ⟨w, rfl⟩
    | none =>
      exfalso
      apply hb
      unfold walletBalance
      rw [hfw]
      exact h0
  have hbW : ¬ w.balanceKobo < a := by
    unfold walletBalance at hb
    rw [hw] at hb
    exact hb
  have hshape : ∃ row : Txn, row.provider = "vtuafrica" ∧ row.providerRef = ref ∧
      row.userId = u ∧
      ((airtimePurchase db u a ref call1).db).txs = db.txs ++ [row] ∧
      findWallet ((airtimePurchase db u a ref call1).db) u ≠ none := by
    unfold airtimePurchase
    rw [getOrCreateWallet_of_some db u "NGN" w hw]
    simp only [hbW, if_false, hfresh, hex, Bool.false_eq_true, not_false_eq_true,
      ite_true, ite_false]
    have hsome1 : (findWallet (walletIncrement db u (-a)) u).isSome :=
      findWallet_walletIncrement_isSome db u u (-a) (by simp [hw])
    cases call1 with
    | error e =>
      refine ⟨⟨db.nextId, u, "debit", "airtime", a, 0, a, "vtuafrica", ref, "pending"⟩,
        rfl, rfl, rfl, ?_, ?_⟩
      · show (walletIncrement db u (-a)).txs ++ _ = _
        rw [walletIncrement_txs]
        rfl
      · show findWallet (walletIncrement db u (-a)) u ≠ none
        intro hnone
        rw [hnone] at hsome1
        exact absurd hsome1 (by simp)
    | ok resp =>
      by_cases hs : isVtuCompleted resp = true
      · refine ⟨⟨db.nextId, u, "debit", "airtime", a, 0, a, "vtuafrica", ref, "success"⟩,
          rfl, rfl, rfl, ?_, ?_⟩
        · simp only [hs, if_true, ite_true]
          show ((walletIncrement db u (-a)).txs ++ _).map _ = _
          rw [walletIncrement_txs]
          exact map_update_append db.txs _ _ hid
        · simp only [hs, if_true, ite_true]
          show findWallet (walletIncrement db u (-a)) u ≠ none
          intro hnone
          rw [hnone] at hsome1
          exact absurd hsome1 (by simp)
      · refine ⟨⟨db.nextId, u, "debit", "airtime", a, 0, a, "vtuafrica", ref, "failed"⟩,
          rfl, rfl, rfl, ?_, ?_⟩
        · simp only [hs, if_false, Bool.false_eq_true, ite_false]
          show (walletIncrement _ u a).txs = _
          rw [walletIncrement_txs]
          show ((walletIncrement db u (-a)).txs ++ _).map _ = _
          rw [walletIncrement_txs]
          exact map_update_append db.txs _ _ hid
        · simp only [hs, if_false, Bool.false_eq_true, ite_false]
          rw [findWallet_walletIncrement]
          obtain ⟨w1, hw1⟩ : ∃ w1, findWallet (walletIncrement db u (-a)) u = some w1 := by
            cases hfw : findWallet (walletIncrement db u (-a)) u with
            | some w1 => exact ⟨w1, rfl⟩
            | none => rw [hfw] at hsome1; exact absurd hsome1 (by simp)
          show ((findWallet (walletIncrement db u (-a)) u).map _) ≠ none
          rw [hw1]
          simp
  obtain ⟨row, hrp, hrr, hru, hrtxs, hrw⟩ := hshape
  obtain ⟨w2, hw2⟩ : ∃ w2, findWallet ((airtimePurchase db u a ref call1).db) u = some w2 := by
    cases hfw2 : findWallet ((airtimePurchase db u a ref call1).db) u with
    | some w2 => exact ⟨w2, rfl⟩
    | none => exact absurd hfw2 hrw
  have hfresh0 : db.txs.find? (fun t =>
      decide (t.provider = "vtuafrica" ∧ t.providerRef = ref ∧ t.userId = u)) = none :=
    hfresh
  have hfound : findTxn ((airtimePurchase db u a ref call1).db) "vtuafrica" ref u =
      some row :=
    findTxn_append_found _ db.txs row _ _ _ hrtxs hfresh0 ⟨hrp, hrr, hru⟩
  have hsecond := airtime_second_run ((airtimePurchase db u a ref call1).db) u a ref
    call2 w2 row hw2 hfound
  refine ⟨?_, hsecond.1, hsecond.2.1, ?_, fun hnb => ⟨row, hsecond.2.2 hnb, hrr, hru⟩⟩
  · rw [hrtxs]
    simp
  · intro resp hc hs
    subst hc
    unfold airtimePurchase
    rw [getOrCreateWallet_of_some db u "NGN" w hw]
    simp only [hbW, if_false, hfresh, hex, Bool.false_eq_true, not_false_eq_true,
      ite_true, ite_false, hs, if_true]
    rw [walletBalance_updateTxn, walletBalance_createTxn,
      walletBalance_inc_self db u (-a) (by simp [hw])]
    ring

/-- Witness for the amended C3 at a concrete input: a 1000 kobo wallet
retries a successful 300 kobo airtime command; the first run writes the
single row and debits once, the retry changes nothing, calls no
provider, and returns the stored transaction. -/
theorem kobpayC3_idempotent_retry_amended_witness :
    ((airtimePurchase ⟨[⟨"u1", 1000, "NGN"⟩], [], [], 5⟩ "u1" 300 "r1"
      (.ok ⟨101, "Completed"⟩)).db).txs.length = 0 + 1 ∧
    (airtimePurchase ((airtimePurchase ⟨[⟨"u1", 1000, "NGN"⟩], [], [], 5⟩ "u1" 300 "r1"
      (.ok ⟨101, "Completed"⟩)).db) "u1" 300 "r1" (.error ())).purchaseCalls = 0 ∧
    walletBalance ((airtimePurchase ⟨[⟨"u1", 1000, "NGN"⟩], [], [], 5⟩ "u1" 300 "r1"
      (.ok ⟨101, "Completed"⟩)).db) "u1" = 1000 - 300 ∧
    (∃ t, (airtimePurchase ((airtimePurchase ⟨[⟨"u1", 1000, "NGN"⟩], [], [], 5⟩
        "u1" 300 "r1" (.ok ⟨101, "Completed"⟩)).db) "u1" 300 "r1"
        (.error ())).result = .idempotent t ∧ t.providerRef = "r1" ∧ t.userId = "u1") :=
  have main := kobpayC3_idempotent_retry_amended ⟨[⟨"u1", 1000, "NGN"⟩], [], [], 5⟩
    "u1" 300 "r1" (.ok ⟨101, "Completed"⟩) (.error ())
    (by decide) (by decide) (by decide) (by decide)
    (by intro t2 ht2 _; simp at ht2)
  ⟨main.1, main.2.2.1,
    main.2.2.2.1 ⟨101, "Completed"⟩ rfl (by decide),
    main.2.2.2.2 (by decide)⟩

/-! ## C1: conservation over operation traces

The trace model applies the embedded endpoint functions themselves: a
settlement is an airtime or generic bill-pay run, a funding credit or
status update arrives through the Flutterwave handler, and a bills
status update arrives through the VTUAfrica handler. Webhook signature
gates are disabled in the trace (no secret configured), matching a
deployment where verification succeeded. -/

/-- One operation of a trace. -/
inductive Op where
  | airtimeOp (u : String) (amountKobo : Int) (ref : String) (call : Except Unit VtuResponse)
  | billPayOp (u : String) (amountKobo : Int) (ref : String) (call : Except Unit VtuResponse)
  | flwHookOp (p : FlwPayload) (freshRef : String)
  | vtuHookOp (p : VtuHookPayload)
deriving Repr

/-- Applying one operation to the store. -/
def applyOp (db : Db) : Op → Db
  | .airtimeOp u a ref call => (airtimePurchase db u a ref call).db
  | .billPayOp u a ref call => (billPay db u a ref call).db
  | .flwHookOp p freshRef =>
    (handleFlutterwaveWebhook (fun _ _ => "") none "" none none "NGN" p freshRef db).1
  | .vtuHookOp p => (handleVtuWebhook (fun s => s) none p db).1

/-- Applying a trace left to right. -/
def applyOps (db : Db) : List Op → Db
  | [] => db
  | op :: ops => applyOps (applyOp db op) ops

/-- Sum of a transaction measure over the ledger rows. -/
def sumTxns (g : Txn → Int) (l : List Txn) : Int := (l.map g).sum

/-- Amount of a credit row owned by u (credits count independently of
status, matching the funding branch which credits the balance in the
same atomic unit that writes the row). -/
def creditAmt (u : String) (t : Txn) : Int :=
  if t.userId = u ∧ t.txType = "credit" then t.amountKobo else 0

/-- Amount of a debit row owned by u in a given status. -/
def debitStatusAmt (u st : String) (t : Txn) : Int :=
  if t.userId = u ∧ t.txType = "debit" ∧ t.status = st then t.amountKobo else 0

/-- Account form of the conservation equation for one wallet: the
balance, minus recorded credits, plus settled debits, plus in-flight
(pending) debits. Along well-behaved traces this quantity is constant,
which is exactly conservation with still-pending debits carved out. -/
def acct (db : Db) (u : String) : Int :=
  walletBalance db u - sumTxns (creditAmt u) db.txs
    + sumTxns (debitStatusAmt u "success") db.txs
    + sumTxns (debitStatusAmt u "pending") db.txs

/-- Transaction-row ids are pairwise distinct. -/
def nodupIds : List Txn → Bool
  | [] => true
  | t :: ts => ts.all (fun t2 => decide (t2.id ≠ t.id)) && nodupIds ts

/-- Every row id is below the id sequence counter. -/
def idsBounded (db : Db) : Bool := db.txs.all (fun t => decide (t.id < db.nextId))

/-- Well-formed store: what the database guarantees about the row-id
sequence. -/
def wfDb (db : Db) : Bool := nodupIds db.txs && idsBounded db

/-- Side condition on a VTUAfrica webhook: when it matches a bills row,
that row is a debit still pending, owned by a user with a wallet row. -/
def vtuHookOk (db : Db) (p : VtuHookPayload) : Bool :=
  match db.txs.find? (fun t =>
    decide (t.provider = "vtuafrica" ∧ t.providerRef = vtuHookReference p ∧
      t.category = "bills")) with
  | none => true
  | some tr =>
    decide (tr.txType = "debit" ∧ tr.status = "pending") && (findWallet db tr.userId).isSome

/-- Side condition on a Flutterwave webhook: a status-update event that
matches a row must hit a pending debit (with a wallet) and carry a
status word of the internal vocabulary; a funding event's providerRef
must be fresh in the ledger, so the credit writes its row. -/
def flwHookOk (db : Db) (p : FlwPayload) : Bool :=
  let data := p.data
  let normalizedEvent := toLowerStr (p.eventField.getD "unknown")
  if normalizedEvent = "singlebillpayment.status" then
    match extractBillReference data with
    | none => true
    | some billRef =>
      match db.txs.find? (fun t =>
        decide (t.provider = "flutterwave" ∧ t.providerRef = billRef)) with
      | none => true
      | some tr =>
        decide (tr.txType = "debit" ∧ tr.status = "pending") &&
          (findWallet db tr.userId).isSome &&
          (let mapped := mapStatus (data.statusField.getD "")
           decide (mapped = "success" ∨ mapped = "failed" ∨ mapped = "pending"))
  else if normalizedEvent = "transfer.completed" ∨ normalizedEvent = "transfer.failed" ∨
      normalizedEvent = "transfer.status" then
    match extractTransferReference data with
    | none => true
    | some transferRef =>
      match db.txs.find? (fun t =>
        decide (t.provider = "flutterwave" ∧ t.providerRef = transferRef ∧
          t.category = "withdrawal")) with
      | none => true
      | some tr =>
        decide (tr.txType = "debit" ∧ tr.status = "pending") &&
          (findWallet db tr.userId).isSome &&
          (let mapped := mapStatus (data.statusField.getD normalizedEvent)
           decide (mapped = "success" ∨ mapped = "failed" ∨ mapped = "pending"))
  else decide (txnExists db "flutterwave" (flwProviderRef p) = false)

/-- Side condition of one trace operation (settlements need none). -/
def opOk (db : Db) : Op → Bool
  | .airtimeOp _ _ _ _ => true
  | .billPayOp _ _ _ _ => true
  | .flwHookOp p _ => flwHookOk db p
  | .vtuHookOp p => vtuHookOk db p

/-- All side conditions hold along the trace. -/
def opsOk (db : Db) : List Op → Bool
  | [] => true
  | op :: ops => opOk db op && opsOk (applyOp db op) ops

/-! Sum and well-formedness bookkeeping lemmas. -/

theorem sumTxns_append (g : Txn → Int) (l : List Txn) (t : Txn) :
    sumTxns g (l ++ [t]) = sumTxns g l + g t := by
  simp [sumTxns]

theorem sumTxns_update (g : Txn → Int) (l : List Txn) (tr : Txn) (f : Txn → Txn)
    (hmem : tr ∈ l) (hn : nodupIds l = true) :
    sumTxns g (l.map (fun x => if x.id = tr.id then f x else x)) =
      sumTxns g l - g tr + g (f tr) := by
  induction l with
  | nil => exact absurd hmem (by simp)
  | cons a l ih =>
    have hn2 : nodupIds l = true := by
      unfold nodupIds at hn
      exact (Bool.and_eq_true_iff.mp hn).2
    have hall : ∀ t2 ∈ l, t2.id ≠ a.id := by
      intro t2 ht2
      have := (Bool.and_eq_true_iff.mp (by unfold nodupIds at hn; exact hn)).1
      rw [List.all_eq_true] at this
      have := this t2 ht2
      simpa using this
    rcases List.mem_cons.mp hmem with rfl | hmem2
    · simp only [List.map_cons, if_pos rfl]
      have : l.map (fun x => if x.id = tr.id then f x else x) = l :=
        map_update_fresh l tr.id f (fun t2 ht2 => hall t2 ht2)
      rw [this]
      simp [sumTxns]
      ring
    · have haid : ¬ a.id = tr.id := by
        intro h
        exact hall tr hmem2 h.symm
      simp only [List.map_cons, haid, if_false]
      rw [show sumTxns g (a :: l.map (fun x => if x.id = tr.id then f x else x)) =
          g a + sumTxns g (l.map (fun x => if x.id = tr.id then f x else x)) by
        simp [sumTxns]]
      rw [ih hmem2 hn2]
      simp [sumTxns]
      ring

theorem all_congr_mem {α : Type} (l : List α) (p q : α → Bool)
    (h : ∀ x ∈ l, p x = q x) : l.all p = l.all q := by
  induction l with
  | nil => rfl
  | cons a l ih =>
    simp only [List.all_cons]
    rw [h a (by simp), ih (fun x hx => h x (by simp [hx]))]

theorem nodupIds_append (l : List Txn) (t : Txn) (h : ∀ t2 ∈ l, t2.id ≠ t.id)
    (hn : nodupIds l = true) : nodupIds (l ++ [t]) = true := by
  induction l with
  | nil => simp [nodupIds]
  | cons a l ih =>
    have hn2 : (l.all fun t2 => decide (t2.id ≠ a.id)) = true ∧ nodupIds l = true := by
      unfold nodupIds at hn
      exact Bool.and_eq_true_iff.mp hn
    show ((l ++ [t]).all (fun t2 => decide (t2.id ≠ a.id)) && nodupIds (l ++ [t])) = true
    rw [Bool.and_eq_true_iff]
    constructor
    · rw [List.all_append, Bool.and_eq_true_iff]
      refine ⟨hn2.1, ?_⟩
      simp only [List.all_cons, List.all_nil, Bool.and_true, decide_eq_true_eq]
      intro he
      exact h a (by simp) he.symm
    · exact ih (fun t2 ht2 => h t2 (by simp [ht2])) hn2.2

theorem nodupIds_map_idpres (l : List Txn) (g : Txn → Txn)
    (hg : ∀ t, (g t).id = t.id) : nodupIds (l.map g) = nodupIds l := by
  induction l with
  | nil => rfl
  | cons a l ih =>
    show (List.all (l.map g) _ && nodupIds (l.map g)) =
      (List.all l _ && nodupIds l)
    rw [ih]
    congr 1
    rw [List.all_map]
    apply all_congr_mem
    intro t _
    simp only [Function.comp_apply, hg a, hg t]

theorem idsLt_map_idpres (l : List Txn) (g : Txn → Txn) (n : Nat)
    (hg : ∀ t, (g t).id = t.id) :
    (l.map g).all (fun t => decide (t.id < n)) = l.all (fun t => decide (t.id < n)) := by
  rw [List.all_map]
  apply all_congr_mem
  intro t _
  simp only [Function.comp_apply, hg t]

/-! Per-primitive acct lemmas. -/

theorem walletBalance_getOrCreate (db : Db) (v c u : String) :
    walletBalance ((getOrCreateWallet db v c).1) u = walletBalance db u := by
  unfold getOrCreateWallet
  cases h : findWallet db v with
  | some w => rfl
  | none =>
    show walletBalance { db with wallets := db.wallets ++ [(⟨v, 0, c⟩ : Wallet)] } u = _
    unfold walletBalance findWallet
    show (((db.wallets ++ [(⟨v, 0, c⟩ : Wallet)]).find? _).map _).getD 0 = _
    rw [List.find?_append]
    cases h2 : db.wallets.find? (fun w => decide (w.userId = u)) with
    | some w => simp
    | none => by_cases hv : v = u <;> simp [hv]

theorem acct_getOrCreate (db : Db) (v c u : String) :
    acct ((getOrCreateWallet db v c).1) u = acct db u := by
  unfold acct
  rw [walletBalance_getOrCreate, getOrCreateWallet_txs]

theorem walletBalance_inc_all (db : Db) (v u : String) (amt : Int)
    (hv : (findWallet db v).isSome) :
    walletBalance (walletIncrement db v amt) u =
      walletBalance db u + (if u = v then amt else 0) := by
  rw [walletBalance_walletIncrement]
  by_cases hu : u = v
  · subst hu
    simp [hv]
  · simp [hu]

theorem walletBalance_upsertCredit (db : Db) (v u : String) (amt : Int) (c : String) :
    walletBalance (walletUpsertCredit db v amt c) u =
      walletBalance db u + (if u = v then amt else 0) := by
  unfold walletUpsertCredit
  cases h : findWallet db v with
  | some w =>
    have huser : ∀ x : Wallet,
        ((if x.userId = v then
          { x with balanceKobo := x.balanceKobo + amt, currency := c } else x) : Wallet).userId
          = x.userId := by
      intro x
      by_cases hx : x.userId = v <;> simp [hx]
    have hfind : (db.wallets.map (fun x =>
        if x.userId = v then { x with balanceKobo := x.balanceKobo + amt, currency := c }
        else x)).find? (fun w => decide (w.userId = u)) =
        (db.wallets.find? (fun w => decide (w.userId = u))).map (fun x =>
          if x.userId = v then { x with balanceKobo := x.balanceKobo + amt, currency := c }
          else x) := by
      induction db.wallets with
      | nil => rfl
      | cons x l ih =>
        simp only [List.map_cons]
        by_cases hu : x.userId = u
        · rw [List.find?_cons_of_pos _
              (by simp only [decide_eq_true_eq, huser x]; exact hu),
            List.find?_cons_of_pos _ (by simp only [decide_eq_true_eq]; exact hu)]
          rfl
        · rw [List.find?_cons_of_neg _
              (by simp only [decide_eq_true_eq, huser x]; exact hu),
            List.find?_cons_of_neg _ (by simp only [decide_eq_true_eq]; exact hu)]
          exact ih
    show walletBalance { db with wallets := _ } u = _
    unfold walletBalance findWallet
    show ((List.find? _ _).map _).getD 0 = _
    rw [hfind]
    cases h2 : db.wallets.find? (fun w => decide (w.userId = u)) with
    | none =>
      by_cases hu : u = v
      · subst hu
        unfold findWallet at h
        rw [h2] at h
        exact absurd h (by simp)
      · simp [hu]
    | some x =>
      have hx : x.userId = u := by
        have := List.find?_some h2
        simpa using this
      by_cases hu : u = v
      · subst hu
        simp [hx]
      · have : ¬ x.userId = v := by rw [hx]; exact hu
        simp [this, hu]
  | none =>
    show walletBalance { db with wallets := db.wallets ++ [(⟨v, amt, c⟩ : Wallet)] } u = _
    unfold walletBalance findWallet
    show (((db.wallets ++ [(⟨v, amt, c⟩ : Wallet)]).find? _).map _).getD 0 = _
    rw [List.find?_append]
    cases h2 : db.wallets.find? (fun w => decide (w.userId = u)) with
    | some w =>
      by_cases hu : u = v
      · subst hu
        unfold findWallet at h
        rw [h2] at h
        exact absurd h (by simp)
      · simp [hu]
    | none =>
      by_cases hu : u = v
      · subst hu
        simp
      · have hvu : ¬ v = u := fun h3 => hu h3.symm
        simp [hvu, hu]

theorem upsertCredit_txs (db : Db) (v : String) (amt : Int) (c : String) :
    (walletUpsertCredit db v amt c).txs = db.txs := by
  unfold walletUpsertCredit
  cases findWallet db v <;> rfl

theorem acct_createEvent (db : Db) (e : WEvent) (u : String) :
    acct (createEvent db e) u = acct db u := rfl

theorem acct_updateEvent (db : Db) (p r s u : String) :
    acct (updateEvent db p r s) u = acct db u := rfl

/-! Per-operation acct preservation. -/

/-- Account-measure computation for a leaf that appended one debit row
for user v and moved the balance by the amount dictated by the row's
final status (debited while in flight or settled, net zero when failed
and refunded). -/
theorem acct_reserve_leaf (db0 db1 : Db) (u v : String) (row : Txn)
    (htxs : db1.txs = db0.txs ++ [row])
    (hbal : walletBalance db1 u = walletBalance db0 u +
      (if u = v then
        (if row.status = "success" ∨ row.status = "pending" then -row.amountKobo else 0)
      else 0))
    (hrowUser : row.userId = v) (hrowType : row.txType = "debit") :
    acct db1 u = acct db0 u := by
  unfold acct
  rw [htxs, hbal, sumTxns_append, sumTxns_append, sumTxns_append]
  have hsp : ("success" : String) ≠ "pending" := by decide
  by_cases hu : u = v
  · subst hu
    by_cases hsucc : row.status = "success"
    · simp [creditAmt, debitStatusAmt, hrowUser, hrowType, hsucc, hsp]
      try ring
    · by_cases hpend : row.status = "pending"
      · simp [creditAmt, debitStatusAmt, hrowUser, hrowType, hsucc, hpend]
        try ring
      · simp [creditAmt, debitStatusAmt, hrowUser, hrowType, hsucc, hpend]
        try ring
  · have hru : ¬ row.userId = u := by rw [hrowUser]; exact fun h => hu h.symm
    simp [creditAmt, debitStatusAmt, hru, hu]
    try ring

/-- Reserve with a thrown provider call: the pending row is appended
and the debit stays in flight. -/
theorem acct_reserve_exception (db1 : Db) (v : String) (a : Int) (cat prov ref u : String)
    (hsome : (findWallet db1 v).isSome) :
    acct ((createTxn (walletIncrement db1 v (-a))
      (fun i => ⟨i, v, "debit", cat, a, 0, a, prov, ref, "pending"⟩)).1) u = acct db1 u := by
  refine acct_reserve_leaf db1 _ u v
    ⟨db1.nextId, v, "debit", cat, a, 0, a, prov, ref, "pending"⟩ rfl ?_ rfl rfl
  rw [walletBalance_createTxn, walletBalance_inc_all db1 v u (-a) hsome]
  have hc : (("pending" : String) = "success" ∨ ("pending" : String) = "pending") := by
    decide
  simp [hc]

/-- Reserve then finalize to success or to a still-pending bill status:
the appended row carries the terminal status and the debit stands. -/
theorem acct_reserve_settle (db1 : Db) (v : String) (a : Int) (cat prov ref st u : String)
    (hsome : (findWallet db1 v).isSome)
    (hid1 : ∀ t2 ∈ db1.txs, t2.id ≠ db1.nextId)
    (hst : st = "success" ∨ st = "pending") :
    acct (updateTxn ((createTxn (walletIncrement db1 v (-a))
        (fun i => ⟨i, v, "debit", cat, a, 0, a, prov, ref, "pending"⟩)).1)
      ((createTxn (walletIncrement db1 v (-a))
        (fun i => ⟨i, v, "debit", cat, a, 0, a, prov, ref, "pending"⟩)).2.id)
      (fun t => { t with status := st })) u = acct db1 u := by
  refine acct_reserve_leaf db1 _ u v
    ⟨db1.nextId, v, "debit", cat, a, 0, a, prov, ref, st⟩ ?_ ?_ rfl rfl
  · show (db1.txs ++
        [(⟨db1.nextId, v, "debit", cat, a, 0, a, prov, ref, "pending"⟩ : Txn)]).map
        (fun x =>
          if x.id = (⟨db1.nextId, v, "debit", cat, a, 0, a, prov, ref, "pending"⟩ : Txn).id
          then { x with status := st } else x) = _
    rw [map_update_append db1.txs _ _ hid1]
  · rw [walletBalance_updateTxn, walletBalance_createTxn,
      walletBalance_inc_all db1 v u (-a) hsome]
    simp [hst]

/-- Reserve, finalize to failed, and apply the one compensating credit:
net zero. -/
theorem acct_reserve_refund (db1 : Db) (v : String) (a : Int) (cat prov ref u : String)
    (hsome : (findWallet db1 v).isSome)
    (hid1 : ∀ t2 ∈ db1.txs, t2.id ≠ db1.nextId) :
    acct (walletIncrement (updateTxn ((createTxn (walletIncrement db1 v (-a))
        (fun i => ⟨i, v, "debit", cat, a, 0, a, prov, ref, "pending"⟩)).1)
      ((createTxn (walletIncrement db1 v (-a))
        (fun i => ⟨i, v, "debit", cat, a, 0, a, prov, ref, "pending"⟩)).2.id)
      (fun t => { t with status := "failed" })) v a) u = acct db1 u := by
  refine acct_reserve_leaf db1 _ u v
    ⟨db1.nextId, v, "debit", cat, a, 0, a, prov, ref, "failed"⟩ ?_ ?_ rfl rfl
  · show (db1.txs ++
        [(⟨db1.nextId, v, "debit", cat, a, 0, a, prov, ref, "pending"⟩ : Txn)]).map
        (fun x =>
          if x.id = (⟨db1.nextId, v, "debit", cat, a, 0, a, prov, ref, "pending"⟩ : Txn).id
          then { x with status := "failed" } else x) = _
    rw [map_update_append db1.txs _ _ hid1]
  · have hsome2 : (findWallet (updateTxn ((createTxn (walletIncrement db1 v (-a))
        (fun i => ⟨i, v, "debit", cat, a, 0, a, prov, ref, "pending"⟩)).1)
        ((createTxn (walletIncrement db1 v (-a))
        (fun i => ⟨i, v, "debit", cat, a, 0, a, prov, ref, "pending"⟩)).2.id)
        (fun t => { t with status := "failed" })) v).isSome :=
      findWallet_walletIncrement_isSome db1 v v (-a) hsome
    rw [walletBalance_inc_all _ v u a hsome2, walletBalance_updateTxn,
      walletBalance_createTxn, walletBalance_inc_all db1 v u (-a) hsome]
    have hf : ¬ (("failed" : String) = "success" ∨ ("failed" : String) = "pending") := by
      decide
    simp only [hf, if_false]
    by_cases hu : u = v <;> simp [hu]

/-- Every path of the airtime flow keeps the account measure constant:
rejections change nothing, the reserve pairs the debit with a pending
row, success turns it into a settled debit, an explicit failure pairs
the failed row with one compensating credit, and a thrown call leaves
the pending row with its debit in flight. Well-formedness provides the
freshness of the new row id. -/
theorem acct_airtime (db : Db) (v : String) (a : Int) (ref : String)
    (call : Except Unit VtuResponse) (u : String) (hwf : wfDb db = true) :
    acct ((airtimePurchase db v a ref call).db) u = acct db u := by
  have hid : ∀ t2 ∈ db.txs, t2.id ≠ db.nextId := by
    intro t2 ht2
    have hbd : idsBounded db = true := (Bool.and_eq_true_iff.mp hwf).2
    unfold idsBounded at hbd
    rw [List.all_eq_true] at hbd
    have := hbd t2 ht2
    simp only [decide_eq_true_eq] at this
    omega
  have hid1 : ∀ t2 ∈ ((getOrCreateWallet db v "NGN").1).txs,
      t2.id ≠ ((getOrCreateWallet db v "NGN").1).nextId := by
    intro t2 ht2
    rw [getOrCreateWallet_txs] at ht2
    rw [getOrCreateWallet_nextId]
    exact hid t2 ht2
  have hsome : (findWallet ((getOrCreateWallet db v "NGN").1) v).isSome :=
    findWallet_getOrCreate_isSome db v "NGN"
  have hacct1 : acct ((getOrCreateWallet db v "NGN").1) u = acct db u :=
    acct_getOrCreate db v "NGN" u
  unfold airtimePurchase
  by_cases hb : ((getOrCreateWallet db v "NGN").2).balanceKobo < a
  · simp only [hb, if_true]
    exact hacct1
  · simp only [hb, if_false]
    cases hf : findTxn ((getOrCreateWallet db v "NGN").1) "vtuafrica" ref v with
    | some e =>
      simp only [hf]
      exact hacct1
    | none =>
      simp only [hf]
      by_cases he : txnExists ((getOrCreateWallet db v "NGN").1) "vtuafrica" ref = true
      · simp only [he, if_true]
        exact hacct1
      · simp only [he, if_false, Bool.false_eq_true, not_false_eq_true, ite_true,
          ite_false]
        cases call with
        | error e =>
          exact Eq.trans
            (acct_reserve_exception ((getOrCreateWallet db v "NGN").1) v a
              "airtime" "vtuafrica" ref u hsome) hacct1
        | ok resp =>
          by_cases hs : isVtuCompleted resp = true
          · simp only [hs, if_true, ite_true]
            exact Eq.trans
              (acct_reserve_settle ((getOrCreateWallet db v "NGN").1) v a
                "airtime" "vtuafrica" ref "success" u hsome hid1 (Or.inl rfl)) hacct1
          · simp only [hs, if_false, Bool.false_eq_true, ite_false]
            exact Eq.trans
              (acct_reserve_refund ((getOrCreateWallet db v "NGN").1) v a
                "airtime" "vtuafrica" ref u hsome hid1) hacct1

/-- Every path of the generic bill-pay flow keeps the account measure
constant; its finalize status can also stay pending (debit still in
flight), and its catch path refunds and marks failed. -/
theorem acct_billPay (db : Db) (v : String) (a : Int) (ref : String)
    (call : Except Unit VtuResponse) (u : String) (hwf : wfDb db = true) :
    acct ((billPay db v a ref call).db) u = acct db u := by
  have hid : ∀ t2 ∈ db.txs, t2.id ≠ db.nextId := by
    intro t2 ht2
    have hbd : idsBounded db = true := (Bool.and_eq_true_iff.mp hwf).2
    unfold idsBounded at hbd
    rw [List.all_eq_true] at hbd
    have := hbd t2 ht2
    simp only [decide_eq_true_eq] at this
    omega
  have hid1 : ∀ t2 ∈ ((getOrCreateWallet db v "NGN").1).txs,
      t2.id ≠ ((getOrCreateWallet db v "NGN").1).nextId := by
    intro t2 ht2
    rw [getOrCreateWallet_txs] at ht2
    rw [getOrCreateWallet_nextId]
    exact hid t2 ht2
  have hsome : (findWallet ((getOrCreateWallet db v "NGN").1) v).isSome :=
    findWallet_getOrCreate_isSome db v "NGN"
  have hacct1 : acct ((getOrCreateWallet db v "NGN").1) u = acct db u :=
    acct_getOrCreate db v "NGN" u
  unfold billPay
  by_cases hb : ((getOrCreateWallet db v "NGN").2).balanceKobo < a
  · simp only [hb, if_true]
    exact hacct1
  · simp only [hb, if_false]
    cases hf : findTxn ((getOrCreateWallet db v "NGN").1) "vtuafrica" ref v with
    | some e =>
      simp only [hf]
      exact hacct1
    | none =>
      simp only [hf]
      by_cases he : txnExists ((getOrCreateWallet db v "NGN").1) "vtuafrica" ref = true
      · simp only [he, if_true]
        exact hacct1
      · simp only [he, if_false, Bool.false_eq_true, not_false_eq_true, ite_true,
          ite_false]
        cases call with
        | error e =>
          exact Eq.trans
            (acct_reserve_refund ((getOrCreateWallet db v "NGN").1) v a
              "bills" "vtuafrica" ref u hsome hid1) hacct1
        | ok resp =>
          have htri : toBillStatus resp = "success" ∨ toBillStatus resp = "failed" ∨
              toBillStatus resp = "pending" := by
            unfold toBillStatus
            by_cases h1 : (strContains (toLowerStr resp.descriptionStatus) "success" ||
                strContains (toLowerStr resp.descriptionStatus) "completed") = true
            · simp [h1]
            · by_cases h2 : (strContains (toLowerStr resp.descriptionStatus) "fail" ||
                  strContains (toLowerStr resp.descriptionStatus) "error") = true
              · simp [h1, h2]
              · simp [h1, h2]
          by_cases hfail : toBillStatus resp = "failed"
          · simp only [hfail, if_true, ite_true]
            exact Eq.trans
              (acct_reserve_refund ((getOrCreateWallet db v "NGN").1) v a
                "bills" "vtuafrica" ref u hsome hid1) hacct1
          · simp only [hfail, if_false, ite_false]
            have hsp : toBillStatus resp = "success" ∨ toBillStatus resp = "pending" := by
              rcases htri with h | h | h
              · exact Or.inl h
              · exact absurd h hfail
              · exact Or.inr h
            exact Eq.trans
              (acct_reserve_settle ((getOrCreateWallet db v "NGN").1) v a
                "bills" "vtuafrica" ref (toBillStatus resp) u hsome hid1 hsp) hacct1

theorem createEvent_txs (db : Db) (e : WEvent) : (createEvent db e).txs = db.txs := rfl

/-- Webhook finalize without refund: flipping a pending debit row to
success keeps the measure (settled replaces in-flight), and to pending
changes nothing. -/
theorem acct_finalize_settle (db : Db) (tr : Txn) (st u : String)
    (hmem : tr ∈ db.txs) (hn : nodupIds db.txs = true)
    (htype : tr.txType = "debit") (hpend : tr.status = "pending")
    (hst : st = "success" ∨ st = "pending") :
    acct (updateTxn db tr.id (fun t => { t with status := st })) u = acct db u := by
  unfold acct
  rw [walletBalance_updateTxn]
  show _ - sumTxns _ (db.txs.map _) + sumTxns _ (db.txs.map _) + sumTxns _ (db.txs.map _)
    = _
  rw [sumTxns_update _ db.txs tr _ hmem hn, sumTxns_update _ db.txs tr _ hmem hn,
    sumTxns_update _ db.txs tr _ hmem hn]
  have hsp : ("pending" : String) ≠ "success" := by decide
  by_cases hu : tr.userId = u
  · rcases hst with h | h <;> subst h <;>
      simp [creditAmt, debitStatusAmt, htype, hpend, hu, hsp] <;> ring
  · simp [creditAmt, debitStatusAmt, hu]

/-- Webhook finalize with refund: flipping a pending debit row to failed
and crediting the amount back nets zero. -/
theorem acct_finalize_refund (db : Db) (tr : Txn) (u : String)
    (hmem : tr ∈ db.txs) (hn : nodupIds db.txs = true)
    (htype : tr.txType = "debit") (hpend : tr.status = "pending")
    (hsome : (findWallet db tr.userId).isSome) :
    acct (walletIncrement (updateTxn db tr.id (fun t => { t with status := "failed" }))
      tr.userId tr.amountKobo) u = acct db u := by
  unfold acct
  have hsome2 : (findWallet (updateTxn db tr.id (fun t => { t with status := "failed" }))
      tr.userId).isSome := hsome
  rw [walletBalance_inc_all _ tr.userId u tr.amountKobo hsome2, walletBalance_updateTxn]
  show _ - sumTxns _ ((updateTxn db tr.id _).txs) + sumTxns _ ((updateTxn db tr.id _).txs)
      + sumTxns _ ((updateTxn db tr.id _).txs) = _
  show _ - sumTxns _ (db.txs.map _) + sumTxns _ (db.txs.map _) + sumTxns _ (db.txs.map _)
    = _
  rw [sumTxns_update _ db.txs tr _ hmem hn, sumTxns_update _ db.txs tr _ hmem hn,
    sumTxns_update _ db.txs tr _ hmem hn]
  have hfs : ("failed" : String) ≠ "success" := by decide
  have hfp : ("failed" : String) ≠ "pending" := by decide
  have hps : ("pending" : String) ≠ "success" := by decide
  by_cases hu : tr.userId = u
  · simp [creditAmt, debitStatusAmt, htype, hpend, hu, hfs, hfp, hps]
    try ring
  · have hu2 : ¬ u = tr.userId := fun h => hu h.symm
    simp [creditAmt, debitStatusAmt, hu, hu2]

/-- Funding credit: the wallet upsert and the credit row written in the
same atomic unit cancel in the measure. -/
theorem acct_funding_credit (db : Db) (uid : String) (amtK feeK : Int)
    (prov ref st c u : String) :
    acct ((createTxn (walletUpsertCredit db uid amtK c)
      (fun i => ⟨i, uid, "credit", "wallet_funding", amtK, feeK, amtK + feeK,
        prov, ref, st⟩)).1) u = acct db u := by
  unfold acct
  rw [walletBalance_createTxn, walletBalance_upsertCredit]
  show _ - sumTxns _ ((walletUpsertCredit db uid amtK c).txs ++ _)
      + sumTxns _ ((walletUpsertCredit db uid amtK c).txs ++ _)
      + sumTxns _ ((walletUpsertCredit db uid amtK c).txs ++ _) = _
  rw [upsertCredit_txs, sumTxns_append, sumTxns_append, sumTxns_append]
  by_cases hu : u = uid
  · subst hu
    simp [creditAmt, debitStatusAmt]
    try ring
  · have huid : ¬ uid = u := fun h => hu h.symm
    simp [creditAmt, debitStatusAmt, hu, huid]

theorem mapVtuWebhookStatus_tri (sRaw : String) :
    mapVtuWebhookStatus sRaw = "success" ∨ mapVtuWebhookStatus sRaw = "failed" ∨
      mapVtuWebhookStatus sRaw = "pending" := by
  unfold mapVtuWebhookStatus
  by_cases h1 : (strContains (toLowerStr sRaw) "success" ||
      strContains (toLowerStr sRaw) "completed") = true
  · simp [h1]
  · by_cases h2 : (strContains (toLowerStr sRaw) "fail" ||
        strContains (toLowerStr sRaw) "error") = true
    · simp [h1, h2]
    · simp [h1, h2]

/-- The VTUAfrica webhook keeps the account measure constant whenever
its side condition holds (any matched bills row is a pending debit with
a wallet): rejection, dedup and unmatched paths touch nothing, a
success or pending report leaves the debit accounted, and a failure
report pairs the failed row with its compensating credit. -/
theorem acct_vtuHook (db : Db) (p : VtuHookPayload) (u : String)
    (hwf : wfDb db = true) (hok : vtuHookOk db p = true) :
    acct ((handleVtuWebhook (fun s => s) none p db).1) u = acct db u := by
  have hn : nodupIds db.txs = true := (Bool.and_eq_true_iff.mp hwf).1
  have hsig : vtuSignatureOk (fun s => s) none p.apikey = true := by
    unfold vtuSignatureOk
    cases p.apikey <;> rfl
  unfold handleVtuWebhook
  simp only [hsig, not_true, if_false, Bool.true_eq_false, not_false_eq_true, ite_true,
    ite_false]
  by_cases href : vtuHookReference p = ""
  · simp only [href, if_true, ite_true]
  · simp only [href, if_false, ite_false]
    cases hev : findEvent db "vtuafrica" (vtuHookReference p) with
    | some e => simp only [hev]
    | none =>
      simp only [hev]
      cases hm : db.txs.find? (fun t =>
        decide (t.provider = "vtuafrica" ∧ t.providerRef = vtuHookReference p ∧
          t.category = "bills")) with
      | none =>
        simp only [createEvent_txs, hm]
        rfl
      | some tr =>
        simp only [createEvent_txs, hm]
        unfold vtuHookOk at hok
        rw [hm] at hok
        rw [Bool.and_eq_true_iff] at hok
        have htr : tr.txType = "debit" ∧ tr.status = "pending" := by
          have := hok.1
          simpa using this
        have hsome : (findWallet db tr.userId).isSome := by
          have := hok.2
          simpa using this
        have hmem : tr ∈ db.txs := List.mem_of_find?_eq_some hm
        by_cases hmf : mapVtuWebhookStatus (p.statusField.getD "") = "failed"
        · simp only [hmf, if_true, ite_true]
          exact acct_finalize_refund (createEvent db
            ⟨"vtuafrica", vtuHookReference p, "transaction", "RECEIVED"⟩) tr u
            hmem hn htr.1 htr.2 hsome
        · simp only [hmf, if_false, ite_false]
          have hst : mapVtuWebhookStatus (p.statusField.getD "") = "success" ∨
              mapVtuWebhookStatus (p.statusField.getD "") = "pending" := by
            rcases mapVtuWebhookStatus_tri (p.statusField.getD "") with h | h | h
            · exact Or.inl h
            · exact absurd h hmf
            · exact Or.inr h
          exact acct_finalize_settle (createEvent db
            ⟨"vtuafrica", vtuHookReference p, "transaction", "RECEIVED"⟩) tr
            (mapVtuWebhookStatus (p.statusField.getD "")) u hmem hn htr.1 htr.2 hst

theorem txnExists_upsert (db : Db) (uid : String) (amt : Int) (c p r : String) :
    txnExists (walletUpsertCredit db uid amt c) p r = txnExists db p r := by
  unfold txnExists
  rw [upsertCredit_txs]

/-- The Flutterwave webhook keeps the account measure constant whenever
its side condition holds: rejection, dedup, ignored and unmatched paths
touch nothing; a matched status update on a pending debit settles it or
refunds it exactly once; a funding event with a ledger-fresh providerRef
credits the wallet and writes the matching credit row in one unit. -/
theorem acct_flwHook (db : Db) (p : FlwPayload) (freshRef : String) (u : String)
    (hwf : wfDb db = true) (hok : flwHookOk db p = true) :
    acct ((handleFlutterwaveWebhook (fun _ _ => "") none "" none none "NGN"
      p freshRef db).1) u = acct db u := by
  have hn : nodupIds db.txs = true := (Bool.and_eq_true_iff.mp hwf).1
  unfold handleFlutterwaveWebhook
  simp only [flwSignatureOk, not_true, if_false, Bool.true_eq_false, not_false_eq_true,
    ite_true, ite_false]
  cases hev : findEvent db "flutterwave" (flwReference p freshRef) with
  | some e => simp only [hev]
  | none =>
    simp only [hev]
    unfold flwHookOk at hok
    by_cases h1 : toLowerStr (p.eventField.getD "unknown") = "singlebillpayment.status"
    · simp only [h1, if_true, ite_true] at hok ⊢
      cases hbr : extractBillReference p.data with
      | none =>
        simp only [hbr]
        rfl
      | some billRef =>
        simp only [hbr] at hok ⊢
        cases hm : db.txs.find? (fun t =>
          decide (t.provider = "flutterwave" ∧ t.providerRef = billRef)) with
        | none =>
          simp only [createEvent_txs, hm]
          rfl
        | some tr =>
          simp only [createEvent_txs, hm] at hok ⊢
          rw [Bool.and_eq_true_iff] at hok
          rw [Bool.and_eq_true_iff] at hok
          obtain ⟨⟨hok1, hok2⟩, hok3⟩ := hok
          have htr : tr.txType = "debit" ∧ tr.status = "pending" := by simpa using hok1
          have hsome : (findWallet db tr.userId).isSome := by simpa using hok2
          have hvocab : mapStatus (p.data.statusField.getD "") = "success" ∨
              mapStatus (p.data.statusField.getD "") = "failed" ∨
              mapStatus (p.data.statusField.getD "") = "pending" := by simpa using hok3
          have hmem : tr ∈ db.txs := List.mem_of_find?_eq_some hm
          by_cases hmf : mapStatus (p.data.statusField.getD "") = "failed"
          · simp only [hmf, if_true, ite_true]
            exact acct_finalize_refund (createEvent db
              ⟨"flutterwave", flwReference p freshRef, p.eventField.getD "unknown",
                "RECEIVED"⟩) tr u hmem hn htr.1 htr.2 hsome
          · simp only [hmf, if_false, ite_false]
            have hst : mapStatus (p.data.statusField.getD "") = "success" ∨
                mapStatus (p.data.statusField.getD "") = "pending" := by
              rcases hvocab with h | h | h
              · exact Or.inl h
              · exact absurd h hmf
              · exact Or.inr h
            exact acct_finalize_settle (createEvent db
              ⟨"flutterwave", flwReference p freshRef, p.eventField.getD "unknown",
                "RECEIVED"⟩) tr (mapStatus (p.data.statusField.getD "")) u
              hmem hn htr.1 htr.2 hst
    · simp only [h1, if_false, ite_false] at hok ⊢
      by_cases h2 : toLowerStr (p.eventField.getD "unknown") = "transfer.completed" ∨
          toLowerStr (p.eventField.getD "unknown") = "transfer.failed" ∨
          toLowerStr (p.eventField.getD "unknown") = "transfer.status"
      · simp only [h2, if_true, ite_true] at hok ⊢
        cases htr2 : extractTransferReference p.data with
        | none =>
          simp only [htr2]
          rfl
        | some transferRef =>
          simp only [htr2] at hok ⊢
          cases hm : db.txs.find? (fun t =>
            decide (t.provider = "flutterwave" ∧ t.providerRef = transferRef ∧
              t.category = "withdrawal")) with
          | none =>
            simp only [createEvent_txs, hm]
            rfl
          | some tr =>
            simp only [createEvent_txs, hm] at hok ⊢
            rw [Bool.and_eq_true_iff] at hok
            rw [Bool.and_eq_true_iff] at hok
            obtain ⟨⟨hok1, hok2⟩, hok3⟩ := hok
            have htr : tr.txType = "debit" ∧ tr.status = "pending" := by simpa using hok1
            have hsome : (findWallet db tr.userId).isSome := by simpa using hok2
            have hvocab :
                mapStatus (p.data.statusField.getD
                  (toLowerStr (p.eventField.getD "unknown"))) = "success" ∨
                mapStatus (p.data.statusField.getD
                  (toLowerStr (p.eventField.getD "unknown"))) = "failed" ∨
                mapStatus (p.data.statusField.getD
                  (toLowerStr (p.eventField.getD "unknown"))) = "pending" := by
              simpa using hok3
            have hmem : tr ∈ db.txs := List.mem_of_find?_eq_some hm
            have hnf : tr.status ≠ "failed" := by
              rw [htr.2]
              decide
            by_cases hmf : mapStatus (p.data.statusField.getD
                (toLowerStr (p.eventField.getD "unknown"))) = "failed"
            · rw [if_pos ⟨hmf, hnf⟩]
              simp only [hmf]
              exact acct_finalize_refund (createEvent db
                ⟨"flutterwave", flwReference p freshRef, p.eventField.getD "unknown",
                  "RECEIVED"⟩) tr u hmem hn htr.1 htr.2 hsome
            · rw [if_neg (fun hc => hmf hc.1)]
              have hst : mapStatus (p.data.statusField.getD
                  (toLowerStr (p.eventField.getD "unknown"))) = "success" ∨
                  mapStatus (p.data.statusField.getD
                    (toLowerStr (p.eventField.getD "unknown"))) = "pending" := by
                rcases hvocab with h | h | h
                · exact Or.inl h
                · exact absurd h hmf
                · exact Or.inr h
              exact acct_finalize_settle (createEvent db
                ⟨"flutterwave", flwReference p freshRef, p.eventField.getD "unknown",
                  "RECEIVED"⟩) tr
                (mapStatus (p.data.statusField.getD
                  (toLowerStr (p.eventField.getD "unknown")))) u hmem hn htr.1 htr.2 hst
      · simp only [h2, if_false, ite_false] at hok ⊢
        by_cases h3 : toLowerStr (p.eventField.getD "unknown") = "charge.completed" ∧
            (toLowerStr ((p.data.statusField <|> p.statusTop).getD "") = "successful" ∨
              toLowerStr ((p.data.statusField <|> p.statusTop).getD "") = "success" ∨
              toLowerStr ((p.data.statusField <|> p.statusTop).getD "") = "succeeded")
        · rw [if_neg (fun hc => hc h3)]
          cases huid : extractUserIdFromTxRef (extractTxRef p.data) <|> p.metaUserId with
          | none =>
            simp only [huid]
            rfl
          | some uid =>
            simp only [huid]
            have hfresh : txnExists db "flutterwave" (flwProviderRef p) = false := by
              simpa using hok
            have hfresh2 : txnExists (walletUpsertCredit (createEvent db
                ⟨"flutterwave", flwReference p freshRef, p.eventField.getD "unknown",
                  "RECEIVED"⟩) uid (p.data.amountNgn * 100)
                (p.data.currencyField.getD "NGN")) "flutterwave" (flwProviderRef p)
                = false := by
              rw [txnExists_upsert]
              exact hfresh
            simp only [hfresh2, Bool.false_eq_true, not_false_eq_true, if_false,
              ite_false]
            exact acct_funding_credit (createEvent db
              ⟨"flutterwave", flwReference p freshRef, p.eventField.getD "unknown",
                "RECEIVED"⟩) uid (p.data.amountNgn * 100) (p.data.feeNgn * 100)
              "flutterwave" (flwProviderRef p)
              (toLowerStr ((p.data.statusField <|> p.statusTop).getD ""))
              (p.data.currencyField.getD "NGN") u
        · rw [if_pos (fun hc => h3 hc)]
          rfl

/-! Well-formedness is preserved by every operation. -/

theorem wfDb_congr (X Y : Db) (ht : X.txs = Y.txs) (hn : X.nextId = Y.nextId) :
    wfDb X = wfDb Y := by
  unfold wfDb idsBounded
  rw [ht, hn]

theorem wf_createTxn (db : Db) (mk : Nat → Txn) (hwf : wfDb db = true)
    (hmkid : (mk db.nextId).id = db.nextId) :
    wfDb ((createTxn db mk).1) = true := by
  unfold wfDb at hwf
  rw [Bool.and_eq_true_iff] at hwf
  have hbnd : ∀ t2 ∈ db.txs, t2.id < db.nextId := by
    intro t2 ht2
    have := hwf.2
    unfold idsBounded at this
    rw [List.all_eq_true] at this
    have := this t2 ht2
    simpa using this
  unfold wfDb
  rw [Bool.and_eq_true_iff]
  constructor
  · show nodupIds (db.txs ++ [mk db.nextId]) = true
    apply nodupIds_append db.txs (mk db.nextId) ?_ hwf.1
    intro t2 ht2
    rw [hmkid]
    exact Nat.ne_of_lt (hbnd t2 ht2)
  · show idsBounded { db with txs := db.txs ++ [mk db.nextId], nextId := db.nextId + 1 }
      = true
    unfold idsBounded
    show (db.txs ++ [mk db.nextId]).all (fun t => decide (t.id < db.nextId + 1)) = true
    rw [List.all_append]
    rw [Bool.and_eq_true_iff]
    constructor
    · rw [List.all_eq_true]
      intro t2 ht2
      have := hbnd t2 ht2
      simp only [decide_eq_true_eq]
      omega
    · simp only [List.all_cons, List.all_nil, Bool.and_true, decide_eq_true_eq, hmkid]
      omega

theorem wf_updateTxn (db : Db) (i : Nat) (f : Txn → Txn)
    (hf : ∀ t, (f t).id = t.id) (hwf : wfDb db = true) :
    wfDb (updateTxn db i f) = true := by
  have hg : ∀ t : Txn, ((fun x => if x.id = i then f x else x) t).id = t.id := by
    intro t
    by_cases h : t.id = i
    · simp only [h, if_true, ite_true]
      rw [hf t, h]
    · simp only [h, if_false, ite_false]
  unfold wfDb at hwf ⊢
  rw [Bool.and_eq_true_iff] at hwf ⊢
  refine ⟨?_, ?_⟩
  · show nodupIds (db.txs.map (fun x => if x.id = i then f x else x)) = true
    rw [nodupIds_map_idpres db.txs _ hg]
    exact hwf.1
  · show (db.txs.map (fun x => if x.id = i then f x else x)).all
      (fun t => decide (t.id < db.nextId)) = true
    rw [idsLt_map_idpres db.txs _ db.nextId hg]
    exact hwf.2

theorem upsertCredit_nextId (db : Db) (uid : String) (amt : Int) (c : String) :
    (walletUpsertCredit db uid amt c).nextId = db.nextId := by
  unfold walletUpsertCredit
  cases findWallet db uid <;> rfl

/-- Every trace operation preserves store well-formedness. -/
theorem wf_applyOp (db : Db) (op : Op) (hwf : wfDb db = true) :
    wfDb (applyOp db op) = true := by
  have hwfGoC : ∀ v c, wfDb ((getOrCreateWallet db v c).1) = true := by
    intro v c
    rw [wfDb_congr ((getOrCreateWallet db v c).1) db (getOrCreateWallet_txs db v c)
      (getOrCreateWallet_nextId db v c)]
    exact hwf
  cases op with
  | airtimeOp v a ref call =>
    show wfDb ((airtimePurchase db v a ref call).db) = true
    unfold airtimePurchase
    by_cases hb : ((getOrCreateWallet db v "NGN").2).balanceKobo < a
    · simp only [hb, if_true]
      exact hwfGoC v "NGN"
    · simp only [hb, if_false]
      cases hf : findTxn ((getOrCreateWallet db v "NGN").1) "vtuafrica" ref v with
      | some e =>
        simp only [hf]
        exact hwfGoC v "NGN"
      | none =>
        simp only [hf]
        by_cases he : txnExists ((getOrCreateWallet db v "NGN").1) "vtuafrica" ref = true
        · simp only [he, if_true]
          exact hwfGoC v "NGN"
        · simp only [he, if_false, Bool.false_eq_true, not_false_eq_true, ite_true,
            ite_false]
          have hwf3 : wfDb ((createTxn (walletIncrement
              ((getOrCreateWallet db v "NGN").1) v (-a))
              (fun i => ⟨i, v, "debit", "airtime", a, 0, a, "vtuafrica", ref,
                "pending"⟩)).1) = true :=
            wf_createTxn _ _ (hwfGoC v "NGN") rfl
          cases call with
          | error e => exact hwf3
          | ok resp =>
            by_cases hs : isVtuCompleted resp = true
            · simp only [hs, if_true, ite_true]
              exact wf_updateTxn _ _ _ (fun t => rfl) hwf3
            · simp only [hs, if_false, Bool.false_eq_true, ite_false]
              exact wf_updateTxn _ _ _ (fun t => rfl) hwf3
  | billPayOp v a ref call =>
    show wfDb ((billPay db v a ref call).db) = true
    unfold billPay
    by_cases hb : ((getOrCreateWallet db v "NGN").2).balanceKobo < a
    · simp only [hb, if_true]
      exact hwfGoC v "NGN"
    · simp only [hb, if_false]
      cases hf : findTxn ((getOrCreateWallet db v "NGN").1) "vtuafrica" ref v with
      | some e =>
        simp only [hf]
        exact hwfGoC v "NGN"
      | none =>
        simp only [hf]
        by_cases he : txnExists ((getOrCreateWallet db v "NGN").1) "vtuafrica" ref = true
        · simp only [he, if_true]
          exact hwfGoC v "NGN"
        · simp only [he, if_false, Bool.false_eq_true, not_false_eq_true, ite_true,
            ite_false]
          have hwf3 : wfDb ((createTxn (walletIncrement
              ((getOrCreateWallet db v "NGN").1) v (-a))
              (fun i => ⟨i, v, "debit", "bills", a, 0, a, "vtuafrica", ref,
                "pending"⟩)).1) = true :=
            wf_createTxn _ _ (hwfGoC v "NGN") rfl
          cases call with
          | error e => exact wf_updateTxn _ _ _ (fun t => rfl) hwf3
          | ok resp =>
            by_cases hfail : toBillStatus resp = "failed"
            · simp only [hfail, if_true, ite_true]
              exact wf_updateTxn _ _ _ (fun t => rfl) hwf3
            · simp only [hfail, if_false, ite_false]
              exact wf_updateTxn _ _ _ (fun t => rfl) hwf3
  | flwHookOp p freshRef =>
    show wfDb ((handleFlutterwaveWebhook (fun _ _ => "") none "" none none "NGN"
      p freshRef db).1) = true
    unfold handleFlutterwaveWebhook
    simp only [flwSignatureOk, not_true, if_false, Bool.true_eq_false, not_false_eq_true,
      ite_true, ite_false]
    cases hev : findEvent db "flutterwave" (flwReference p freshRef) with
    | some e =>
      simp only [hev]
      exact hwf
    | none =>
      simp only [hev]
      by_cases h1 : toLowerStr (p.eventField.getD "unknown") = "singlebillpayment.status"
      · simp only [h1, if_true, ite_true]
        cases hbr : extractBillReference p.data with
        | none =>
          simp only [hbr]
          exact hwf
        | some billRef =>
          simp only [hbr]
          cases hm : (createEvent db ⟨"flutterwave", flwReference p freshRef,
              p.eventField.getD "unknown", "RECEIVED"⟩).txs.find? (fun t =>
            decide (t.provider = "flutterwave" ∧ t.providerRef = billRef)) with
          | none =>
            simp only [hm]
            exact hwf
          | some tr =>
            simp only [hm]
            have hupd : wfDb (updateTxn (createEvent db ⟨"flutterwave",
                flwReference p freshRef, p.eventField.getD "unknown", "RECEIVED"⟩)
                tr.id (fun t =>
                  { t with status := mapStatus (p.data.statusField.getD "") })) = true :=
              wf_updateTxn _ _ _ (fun t => rfl) hwf
            by_cases hmf : mapStatus (p.data.statusField.getD "") = "failed"
            · simp only [hmf, if_true, ite_true]
              exact wf_updateTxn _ _ _ (fun t => rfl) hwf
            · simp only [hmf, if_false, ite_false]
              exact hupd
      · simp only [h1, if_false, ite_false]
        by_cases h2 : toLowerStr (p.eventField.getD "unknown") = "transfer.completed" ∨
            toLowerStr (p.eventField.getD "unknown") = "transfer.failed" ∨
            toLowerStr (p.eventField.getD "unknown") = "transfer.status"
        · simp only [h2, if_true, ite_true]
          cases htr2 : extractTransferReference p.data with
          | none =>
            simp only [htr2]
            exact hwf
          | some transferRef =>
            simp only [htr2]
            cases hm : (createEvent db ⟨"flutterwave", flwReference p freshRef,
                p.eventField.getD "unknown", "RECEIVED"⟩).txs.find? (fun t =>
              decide (t.provider = "flutterwave" ∧ t.providerRef = transferRef ∧
                t.category = "withdrawal")) with
            | none =>
              simp only [hm]
              exact hwf
            | some tr =>
              simp only [hm]
              have hupd : wfDb (updateTxn (createEvent db ⟨"flutterwave",
                  flwReference p freshRef, p.eventField.getD "unknown", "RECEIVED"⟩)
                  tr.id (fun t =>
                    { t with status := mapStatus (p.data.statusField.getD
                      (toLowerStr (p.eventField.getD "unknown"))) })) = true :=
                wf_updateTxn _ _ _ (fun t => rfl) hwf
              by_cases hc : mapStatus (p.data.statusField.getD
                  (toLowerStr (p.eventField.getD "unknown"))) = "failed" ∧
                  tr.status ≠ "failed"
              · rw [if_pos hc]
                exact hupd
              · rw [if_neg hc]
                exact hupd
        · simp only [h2, if_false, ite_false]
          by_cases h3 : toLowerStr (p.eventField.getD "unknown") = "charge.completed" ∧
              (toLowerStr ((p.data.statusField <|> p.statusTop).getD "") = "successful" ∨
                toLowerStr ((p.data.statusField <|> p.statusTop).getD "") = "success" ∨
                toLowerStr ((p.data.statusField <|> p.statusTop).getD "") = "succeeded")
          · rw [if_neg (fun hc => hc h3)]
            cases huid : extractUserIdFromTxRef (extractTxRef p.data) <|> p.metaUserId with
            | none =>
              simp only [huid]
              exact hwf
            | some uid =>
              simp only [huid]
              have hwfUp : wfDb (walletUpsertCredit (createEvent db ⟨"flutterwave",
                  flwReference p freshRef, p.eventField.getD "unknown", "RECEIVED"⟩)
                  uid (p.data.amountNgn * 100) (p.data.currencyField.getD "NGN"))
                  = true := by
                rw [wfDb_congr (walletUpsertCredit (createEvent db ⟨"flutterwave",
                    flwReference p freshRef, p.eventField.getD "unknown", "RECEIVED"⟩)
                    uid (p.data.amountNgn * 100) (p.data.currencyField.getD "NGN"))
                  (createEvent db ⟨"flutterwave", flwReference p freshRef,
                    p.eventField.getD "unknown", "RECEIVED"⟩)
                  (upsertCredit_txs _ _ _ _) (upsertCredit_nextId _ _ _ _)]
                exact hwf
              by_cases hcol : txnExists (walletUpsertCredit (createEvent db
                  ⟨"flutterwave", flwReference p freshRef, p.eventField.getD "unknown",
                    "RECEIVED"⟩) uid (p.data.amountNgn * 100)
                  (p.data.currencyField.getD "NGN")) "flutterwave" (flwProviderRef p)
                  = true
              · simp only [hcol, if_true, ite_true]
                exact hwfUp
              · simp only [hcol, if_false, Bool.false_eq_true, not_false_eq_true,
                  ite_true, ite_false]
                show wfDb ((createTxn (walletUpsertCredit (createEvent db
                    ⟨"flutterwave", flwReference p freshRef, p.eventField.getD "unknown",
                      "RECEIVED"⟩) uid (p.data.amountNgn * 100)
                    (p.data.currencyField.getD "NGN"))
                  (fun i => ⟨i, uid, "credit", "wallet_funding", p.data.amountNgn * 100,
                    p.data.feeNgn * 100, p.data.amountNgn * 100 + p.data.feeNgn * 100,
                    "flutterwave", flwProviderRef p,
                    toLowerStr ((p.data.statusField <|> p.statusTop).getD "")⟩)).1) = true
                apply wf_createTxn _ _ hwfUp
                rfl
          · rw [if_pos (fun hc => h3 hc)]
            exact hwf
  | vtuHookOp p =>
    show wfDb ((handleVtuWebhook (fun s => s) none p db).1) = true
    have hsig : vtuSignatureOk (fun s => s) none p.apikey = true := by
      unfold vtuSignatureOk
      cases p.apikey <;> rfl
    unfold handleVtuWebhook
    simp only [hsig, not_true, if_false, Bool.true_eq_false, not_false_eq_true, ite_true,
      ite_false]
    by_cases href : vtuHookReference p = ""
    · simp only [href, if_true, ite_true]
      exact hwf
    · simp only [href, if_false, ite_false]
      cases hev : findEvent db "vtuafrica" (vtuHookReference p) with
      | some e =>
        simp only [hev]
        exact hwf
      | none =>
        simp only [hev]
        cases hm : (createEvent db ⟨"vtuafrica", vtuHookReference p, "transaction",
            "RECEIVED"⟩).txs.find? (fun t =>
          decide (t.provider = "vtuafrica" ∧ t.providerRef = vtuHookReference p ∧
            t.category = "bills")) with
        | none =>
          simp only [hm]
          exact hwf
        | some tr =>
          simp only [hm]
          have hupd : wfDb (updateTxn (createEvent db ⟨"vtuafrica", vtuHookReference p,
              "transaction", "RECEIVED"⟩) tr.id (fun t =>
                { t with status := mapVtuWebhookStatus (p.statusField.getD "") }))
              = true :=
            wf_updateTxn _ _ _ (fun t => rfl) hwf
          by_cases hmf : mapVtuWebhookStatus (p.statusField.getD "") = "failed"
          · simp only [hmf, if_true, ite_true]
            exact wf_updateTxn _ _ _ (fun t => rfl) hwf
          · simp only [hmf, if_false, ite_false]
            exact hupd

/-- One trace operation keeps the account measure constant. -/
theorem acct_applyOp (db : Db) (op : Op) (u : String)
    (hwf : wfDb db = true) (hok : opOk db op = true) :
    acct (applyOp db op) u = acct db u := by
  cases op with
  | airtimeOp v a ref call => exact acct_airtime db v a ref call u hwf
  | billPayOp v a ref call => exact acct_billPay db v a ref call u hwf
  | flwHookOp p freshRef => exact acct_flwHook db p freshRef u hwf hok
  | vtuHookOp p => exact acct_vtuHook db p u hwf hok

/-- The account measure is constant along any well-behaved trace. -/
theorem acct_applyOps (db : Db) (ops : List Op) (u : String)
    (hwf : wfDb db = true) (hok : opsOk db ops = true) :
    acct (applyOps db ops) u = acct db u := by
  induction ops generalizing db with
  | nil => rfl
  | cons op ops ih =>
    unfold opsOk at hok
    rw [Bool.and_eq_true_iff] at hok
    show acct (applyOps (applyOp db op) ops) u = acct db u
    rw [ih (applyOp db op) (wf_applyOp db op hwf) hok.2]
    exact acct_applyOp db op u hwf hok.1

/-- Counterexample to claim C1 as stated. One airtime settlement whose
provider call throws: the wallet drops from 1000 to 500 kobo while the
trace records no credit and no successful debit, so the claimed equation
finalBalance = initialBalance + credits - successfulDebits fails — the
debit is withheld by a transaction that is still pending, a term the
claimed equation does not carry. -/
theorem kobpayC1_counterexample :
    walletBalance (applyOps ⟨[⟨"u1", 1000, "NGN"⟩], [], [], 0⟩
        [.airtimeOp "u1" 500 "r1" (.error ())]) "u1" ≠
      walletBalance ⟨[⟨"u1", 1000, "NGN"⟩], [], [], 0⟩ "u1"
      + (sumTxns (creditAmt "u1") (applyOps ⟨[⟨"u1", 1000, "NGN"⟩], [], [], 0⟩
            [.airtimeOp "u1" 500 "r1" (.error ())]).txs
          - sumTxns (creditAmt "u1") ([] : List Txn))
      - (sumTxns (debitStatusAmt "u1" "success")
            (applyOps ⟨[⟨"u1", 1000, "NGN"⟩], [], [], 0⟩
              [.airtimeOp "u1" 500 "r1" (.error ())]).txs
          - sumTxns (debitStatusAmt "u1" "success") ([] : List Txn)) := by
  decide

/-- Claim C1 as amended. For every wallet and every trace of
settlement, funding-credit and webhook-reconciliation operations whose
side conditions hold (each webhook finalizes only a still-pending debit
with a terminal status word, and each funding credit's providerRef is
fresh in the ledger — the code refunds a second time, or credits without
a row, outside these conditions), the final balance equals the initial
balance plus the credited amounts, minus the successful debits, minus
the debits still pending at the end; every debit that ended failed
contributes zero net change, its debit having been offset by exactly one
compensating credit. -/
theorem kobpayC1_conservation_amended (db : Db) (ops : List Op) (u : String)
    (hwf : wfDb db = true) (hok : opsOk db ops = true) :
    walletBalance (applyOps db ops) u =
      walletBalance db u
      + (sumTxns (creditAmt u) (applyOps db ops).txs - sumTxns (creditAmt u) db.txs)
      - (sumTxns (debitStatusAmt u "success") (applyOps db ops).txs
          - sumTxns (debitStatusAmt u "success") db.txs)
      - (sumTxns (debitStatusAmt u "pending") (applyOps db ops).txs
          - sumTxns (debitStatusAmt u "pending") db.txs) := by
  have h := acct_applyOps db ops u hwf hok
  unfold acct at h
  linarith

/-- Witness for the amended C1 on a four-operation trace: a 25000 kobo
funding credit, a successful 500 kobo airtime settlement, a 700 kobo
bill payment left pending by the provider, and a failure webhook that
finalizes it with one refund. The balance lands exactly on the amended
equation: 100000 + 25000 - 500 - 0 = 124500. -/
theorem kobpayC1_conservation_amended_witness :
    wfDb ⟨[⟨"u1", 100000, "NGN"⟩], [], [], 0⟩ = true ∧
    opsOk ⟨[⟨"u1", 100000, "NGN"⟩], [], [], 0⟩
      [.flwHookOp ⟨some "charge.completed",
          ⟨some "fw1", none, none, some "tx9", some "successful", none, 250, 0, none⟩,
          some "u1", none, none⟩ "fresh",
        .airtimeOp "u1" 500 "r1" (.ok ⟨101, "Completed"⟩),
        .billPayOp "u1" 700 "r2" (.ok ⟨101, "Processing"⟩),
        .vtuHookOp ⟨none, some "r2", none, none, some "failed"⟩] = true ∧
    walletBalance (applyOps ⟨[⟨"u1", 100000, "NGN"⟩], [], [], 0⟩
      [.flwHookOp ⟨some "charge.completed",
          ⟨some "fw1", none, none, some "tx9", some "successful", none, 250, 0, none⟩,
          some "u1", none, none⟩ "fresh",
        .airtimeOp "u1" 500 "r1" (.ok ⟨101, "Completed"⟩),
        .billPayOp "u1" 700 "r2" (.ok ⟨101, "Processing"⟩),
        .vtuHookOp ⟨none, some "r2", none, none, some "failed"⟩]) "u1" =
      walletBalance ⟨[⟨"u1", 100000, "NGN"⟩], [], [], 0⟩ "u1"
      + (sumTxns (creditAmt "u1") (applyOps ⟨[⟨"u1", 100000, "NGN"⟩], [], [], 0⟩
            [.flwHookOp ⟨some "charge.completed",
                ⟨some "fw1", none, none, some "tx9", some "successful", none, 250, 0,
                  none⟩, some "u1", none, none⟩ "fresh",
              .airtimeOp "u1" 500 "r1" (.ok ⟨101, "Completed"⟩),
              .billPayOp "u1" 700 "r2" (.ok ⟨101, "Processing"⟩),
              .vtuHookOp ⟨none, some "r2", none, none, some "failed"⟩]).txs
          - sumTxns (creditAmt "u1") ([] : List Txn))
      - (sumTxns (debitStatusAmt "u1" "success")
            (applyOps ⟨[⟨"u1", 100000, "NGN"⟩], [], [], 0⟩
              [.flwHookOp ⟨some "charge.completed",
                  ⟨some "fw1", none, none, some "tx9", some "successful", none, 250, 0,
                    none⟩, some "u1", none, none⟩ "fresh",
                .airtimeOp "u1" 500 "r1" (.ok ⟨101, "Completed"⟩),
                .billPayOp "u1" 700 "r2" (.ok ⟨101, "Processing"⟩),
                .vtuHookOp ⟨none, some "r2", none, none, some "failed"⟩]).txs
          - sumTxns (debitStatusAmt "u1" "success") ([] : List Txn))
      - (sumTxns (debitStatusAmt "u1" "pending")
            (applyOps ⟨[⟨"u1", 100000, "NGN"⟩], [], [], 0⟩
              [.flwHookOp ⟨some "charge.completed",
                  ⟨some "fw1", none, none, some "tx9", some "successful", none, 250, 0,
                    none⟩, some "u1", none, none⟩ "fresh",
                .airtimeOp "u1" 500 "r1" (.ok ⟨101, "Completed"⟩),
                .billPayOp "u1" 700 "r2" (.ok ⟨101, "Processing"⟩),
                .vtuHookOp ⟨none, some "r2", none, none, some "failed"⟩]).txs
          - sumTxns (debitStatusAmt "u1" "pending") ([] : List Txn)) :=
  ⟨by decide, by decide,
    kobpayC1_conservation_amended ⟨[⟨"u1", 100000, "NGN"⟩], [], [], 0⟩
      [.flwHookOp ⟨some "charge.completed",
          ⟨some "fw1", none, none, some "tx9", some "successful", none, 250, 0, none⟩,
          some "u1", none, none⟩ "fresh",
        .airtimeOp "u1" 500 "r1" (.ok ⟨101, "Completed"⟩),
        .billPayOp "u1" 700 "r2" (.ok ⟨101, "Processing"⟩),
        .vtuHookOp ⟨none, some "r2", none, none, some "failed"⟩] "u1"
      (by decide) (by decide)⟩

end Kobpay
